import Mathlib

/-!
# CITDL resolver verification (SublimeCodeIntel / CodeIntel)

Shallow embedding of the ECMAScript CITDL resolver
(`codeintel2/tree_ecma.py`) and the scanner's best-return-type selection
(`codeintel2/ecmacile.py:cix_function`), with theorems checking the
natural-language specification against the code.

Conventions of the embedding:
* ciElementTree elements become the inductive `Elem` (tag, attribute
  association list, child list); `elem.get(attr)` is association-list
  lookup, `elem.names` is lookup among children by their `name` attribute.
* Python exceptions become the `Err` sum type threaded through `Except`.
* The evaluator's mutable fields (`self._libs`, `self._built_in_blob`,
  and the shared `self.buf.libs`) become the explicit state `EvalSt`.
* Python `is` identity tests become structural equality (the elements
  compared are produced by the resolver itself from a fixed tree, where
  the two notions coincide).
* Recursion in the resolver is fuel-indexed; exhausted fuel yields the
  embedding-internal `Err.outOfFuel`, distinct from every error the code
  can raise.
-/

namespace CodeIntel

/-- A ciElementTree element: tag, attributes, children
(`codeintel2` symbol-tree node). -/
inductive Elem where
  | mk (tag : String) (attrs : List (String × String)) (children : List Elem)
  deriving Repr

namespace Elem

def tag : Elem → String
  | .mk t _ _ => t

def attrs : Elem → List (String × String)
  | .mk _ a _ => a

def children : Elem → List Elem
  | .mk _ _ c => c

/-- `elem.get(name)` — attribute lookup (None ↦ `none`). -/
def get (e : Elem) (name : String) : Option String :=
  (e.attrs.find? (fun p => p.1 = name)).map Prod.snd

/-- `elem.get(name, "")`. -/
def getD (e : Elem) (name : String) (d : String) : String :=
  (e.get name).getD d

end Elem

mutual

/-- Decidable structural equality, standing in for Python object identity
where the code uses `is` / `is not`. -/
def Elem.decEq : (x y : Elem) → Decidable (x = y)
  | .mk t a cs, .mk t' a' cs' =>
    if h1 : t = t' then
      if h2 : a = a' then
        match Elem.decEqList cs cs' with
        | isTrue h3 => isTrue (by rw [h1, h2, h3])
        | isFalse h3 => isFalse (fun h => by cases h; exact h3 rfl)
      else isFalse (fun h => by cases h; exact h2 rfl)
    else isFalse (fun h => by cases h; exact h1 rfl)

def Elem.decEqList : (xs ys : List Elem) → Decidable (xs = ys)
  | [], [] => isTrue rfl
  | x :: xs, y :: ys =>
    match Elem.decEq x y with
    | isTrue h =>
      match Elem.decEqList xs ys with
      | isTrue h' => isTrue (by rw [h, h'])
      | isFalse h' => isFalse (fun hh => by cases hh; exact h' rfl)
    | isFalse h => isFalse (fun hh => by cases hh; exact h rfl)
  | [], _ :: _ => isFalse (by simp)
  | _ :: _, [] => isFalse (by simp)

end

instance : DecidableEq Elem := Elem.decEq

/-! ## Expression tokenizer (`tree_ecma.py:_tokenize_citdl_expr`) -/

/-- Characters of the separator class `[.()]` in `tokenize_re`. -/
def isSep (c : Char) : Bool := c = '.' || c = '(' || c = ')'

/-- Tail of the `(sep, word)` match groups that
`tokenize_re.finditer(citdl)` yields for `tokenize_re = (^|[.()])([^.()]*)`:
one match per separator character (`sep`, the last separator seen), each
followed by its run of non-separator characters (`word`, accumulated in
reverse). -/
def finditerChars (sep : Char) (word : List Char) :
    List Char → List (String × String)
  | [] => [(String.mk [sep], String.mk word.reverse)]
  | c :: rest =>
    if isSep c then
      (String.mk [sep], String.mk word.reverse) :: finditerChars c [] rest
    else finditerChars sep (c :: word) rest

/-- The leading match of `tokenize_re.finditer(citdl)` (the `^`
alternative, with empty separator group), chaining into `finditerChars`
at the first separator. -/
def tokenizeReAux (word : List Char) : List Char → List (String × String)
  | [] => [("", String.mk word.reverse)]
  | c :: rest =>
    if isSep c then ("", String.mk word.reverse) :: finditerChars c [] rest
    else tokenizeReAux (c :: word) rest

/-- All `(sep, word)` match groups of `tokenize_re.finditer(citdl)`. -/
def tokenizeRe (citdl : String) : List (String × String) :=
  tokenizeReAux [] citdl.toList

/-- The loop body of `_tokenize_citdl_expr`, folding over the regex
matches while tracking paren nesting `level` and the accumulated
call-token text `params`. -/
def tokLoop : List (String × String) → Int → String → List String
  | [], _, _ => []
  | (sep, word) :: ms, level, params =>
    if sep = "(" then
      tokLoop ms (level + 1) (params ++ sep ++ word)
    else if sep = ")" then
      if level - 1 = 0 then
        (params ++ ")") ::
          ((if word ≠ "" then [word] else []) ++ tokLoop ms (level - 1) "")
      else
        tokLoop ms (level - 1) (params ++ sep ++ word)
    else
      if level = 0 then
        (if word ≠ "" then [word] else []) ++ tokLoop ms level params
      else
        tokLoop ms level (params ++ sep ++ word)

/-- `_tokenize_citdl_expr(citdl)` as a list. -/
def tokenizeCitdlExpr (citdl : String) : List String :=
  tokLoop (tokenizeRe citdl) 0 ""

/-! ## Python string/path helpers used by the resolver -/

/-- The word accumulator of `pySplitWs` (structural, so that proofs can
evaluate it). -/
def splitWsAux (cur : List Char) : List Char → List String
  | [] => if cur = [] then [] else [String.mk cur.reverse]
  | c :: rest =>
    if c.isWhitespace then
      if cur = [] then splitWsAux [] rest
      else String.mk cur.reverse :: splitWsAux [] rest
    else splitWsAux (c :: cur) rest

/-- Python `str.split()` (split on whitespace runs, no empty pieces). -/
def pySplitWs (s : String) : List String :=
  splitWsAux [] s.toList

/-- The accumulator of `pySplit1`. -/
def split1Aux (sep : Char) (cur : List Char) : List Char → List String
  | [] => [String.mk cur.reverse]
  | c :: rest =>
    if c = sep then String.mk cur.reverse :: split1Aux sep [] rest
    else split1Aux sep (c :: cur) rest

/-- Python `str.split(sep)` for a one-character separator (the only kind
the resolver uses: `"/"` and `","`). -/
def pySplit1 (s : String) (sep : Char) : List String :=
  split1Aux sep [] s.toList

/-- Python `str.startswith(pre)`. -/
def pyStartsWith (s pre : String) : Bool :=
  pre.toList.isPrefixOf s.toList

/-- Python `int(s)` for the resolver's non-negative `__argK` indices
(`ValueError` as `none`). -/
def pyToNat (s : String) : Option Nat :=
  if s.toList ≠ [] ∧ s.toList.all (fun c => c.isDigit) then
    some (s.toList.foldl (fun n c => n * 10 + (c.toNat - 48)) 0)
  else none

/-- Python `str.lstrip("./")`. -/
def pyLstrip (s : String) : String :=
  String.mk (s.toList.dropWhile (fun c => c = '.' || c = '/'))

/-- `os.path.dirname` for '/'-separated paths (all paths the resolver
manipulates use '/'); the filesystem root collapses to the empty string,
which only shortens the bounded parent-directory walk. -/
def dirname (s : String) : String :=
  match (s.toList.reverse).dropWhile (fun c => c ≠ '/') with
  | [] => ""
  | _ :: rest => String.mk rest.reverse

/-- `os.path.join` for the two-argument uses in the resolver (the
embedding keeps paths un-normalised; no claim depends on `..` folding). -/
def pathJoin (a b : String) : String :=
  if a = "" then b else a ++ "/" ++ b

/-- Python negative-index-aware list access (`l[i]` with `IndexError`
as `none`). -/
def pyIndex {α : Type} (l : List α) (i : Int) : Option α :=
  if 0 ≤ i then l.get? i.toNat
  else if 0 ≤ i + l.length then l.get? (i + l.length).toNat else none

/-! ## Errors, scope references, libraries, evaluator state -/

/-- Python exceptions arising during resolution.  `codeIntel` is
`CodeIntelError` (caught at the fallback boundaries); `cycle` is the
`CycleDetected` sentinel error (spec §7: always escalates, never caught);
`notImplemented` is `NotImplementedError`; `python` is any other
interpreter-level failure (`KeyError`, `IndexError`, `NameError`);
`outOfFuel` is an artifact of the fuel-indexed embedding, distinct from
every error the code can raise. -/
inductive Err where
  | codeIntel (msg : String)
  | cycle (msg : String)
  | notImplemented (msg : String)
  | python (msg : String)
  | outOfFuel
  deriving Repr, DecidableEq

/-- A scoperef `(<blob>, <lpath>)`. -/
abbrev ScopeRef := Elem × List String

/-- A hit `(<elem>, <scoperef>)`. -/
abbrev Hit := Elem × ScopeRef

namespace Elem

/-- Modelled from the spec: the `names` index of ciElementTree elements is
implemented in the C extension `xElementTree` ("indexed names"), which is
not under `src/`.  Per §3 it is an ordered map from each named child's
`name` attribute to that child, unique keys in declaration order. -/
def namesItems (e : Elem) : List (String × Elem) :=
  e.children.filterMap (fun c => (c.get "name").map (fun n => (n, c)))

/-- `elem.names[n]` (with `KeyError` as `none`). -/
def namesGet (e : Elem) (n : String) : Option Elem :=
  (e.namesItems.find? (fun p => p.1 = n)).map Prod.snd

end Elem

/-- Modelled from the spec: a `Library` (§3, §6) is an opaque provider of
blobs by module name, with a `name` (e.g. "reldirlib", "curdirlib") and
root `dirs`; the concrete library classes live in the database layer, not
under `src/`. -/
structure Lib where
  name : String
  dirs : List String
  blobs : List (String × Elem)
  deriving Repr, DecidableEq

/-- `lib.get_blob(m)` with `NotFound` as `none`. -/
def Lib.getBlob? (l : Lib) (m : String) : Option Elem :=
  (l.blobs.find? (fun p => p.1 = m)).map Prod.snd

/-- Read-only evaluation context: the buffer path (`self.buf.path`), the
database's library factory (`mgr.db.get_lang_lib`, for the fixed trigger
language) and the filesystem probe used by the lazy parent-directory
generator (`os.path.exists` on `<dir>/<name>/__init__.py`). -/
structure Env where
  bufPath : String
  getLangLib : String → List String → Lib
  initExists : String → Bool

/-- The mutable evaluator state: the shared `self.buf.libs`, the
evaluator's own shadow copy `self._libs` (None until first use), the
process-wide built-in blob memo `self._built_in_blob`, and the per-
evaluation expression counters `self._eval_count_from_expr` of the
recursion sentinel. -/
structure EvalSt where
  bufLibs : List Lib
  shadowLibs : Option (List Lib)
  builtin : Option Elem
  evalCounts : List (String × Nat)
  deriving Repr, DecidableEq

namespace EvalSt

/-- A fresh evaluator over the given buffer libraries. -/
def init (bufLibs : List Lib) : EvalSt :=
  ⟨bufLibs, none, none, []⟩

/-- The `libs` property getter: the shadow copy, lazily initialised from
`self.buf.libs`. -/
def getLibs (st : EvalSt) : List Lib × EvalSt :=
  match st.shadowLibs with
  | some l => (l, st)
  | none => (st.bufLibs, { st with shadowLibs := some st.bufLibs })

/-- The `libs` property setter. -/
def setLibs (st : EvalSt) (l : List Lib) : EvalSt :=
  { st with shadowLibs := some l }

/-- Record an expression evaluation in `self._eval_count_from_expr`. -/
def bumpCount (st : EvalSt) (expr : String) : EvalSt :=
  { st with evalCounts :=
      if st.evalCounts.any (fun p => p.1 = expr) then
        st.evalCounts.map (fun p => if p.1 = expr then (p.1, p.2 + 1) else p)
      else st.evalCounts ++ [(expr, 1)] }

/-- `self.stdlib`: the last of `self.buf.libs`. -/
def stdlib (st : EvalSt) : Except Err Lib :=
  match st.bufLibs.getLast? with
  | some l => .ok l
  | none => .error (.python "IndexError: buf.libs is empty")

/-- The `built_in_blob` property: memoised load of the stdlib's `*` blob. -/
def builtInBlob (st : EvalSt) : Except Err (Elem × EvalSt) :=
  match st.builtin with
  | some b => .ok (b, st)
  | none =>
    match st.stdlib with
    | .error e => .error e
    | .ok lib =>
      match lib.getBlob? "*" with
      | some b => .ok (b, { st with builtin := some b })
      | none => .error (.codeIntel "NotFound: stdlib has no blob *")

end EvalSt

/-- `_SENTINEL_MAX_EXPR_COUNT` (`tree_ecma.py` line 159). -/
def SENTINEL_MAX_EXPR_COUNT : Nat := 100

/-- Modelled from the spec: `_check_infinite_recursion` is defined on the
`TreeEvaluator` base class (`codeintel2/tree.py`), which is not under
`src/`; `tree_ecma.py` only overrides its sentinel constant
`_SENTINEL_MAX_EXPR_COUNT = 100`.  Per §7, `CycleDetected` fires when a
citdl/inheritance chain revisits an expression already being resolved,
and always escalates (it is never caught by the `except CodeIntelError`
fallback handlers).  The check counts evaluations of each expression in
`self._eval_count_from_expr` and trips once a count reaches the sentinel,
which is what makes the deliberate re-entries of the resolver (e.g. the
re-export fallback of `_hit_from_elem_imports`) legal while still
detecting every unbounded revisiting chain. -/
def checkInfiniteRecursion (expr : String) (st : EvalSt) : Except Err EvalSt :=
  let c := ((st.evalCounts.find? (fun p => p.1 = expr)).map Prod.snd).getD 0 + 1
  if SENTINEL_MAX_EXPR_COUNT ≤ c then
    .error (.cycle ("hit eval sentinel: expr '" ++ expr ++ "' eval count is " ++
      toString c ++ " (abort)"))
  else
    .ok (st.bumpCount expr)

/-- Modelled from the spec: `import_handler.import_blob_name(module, libs,
ctlr)` lives on the `ImportHandler` base class, which is not under `src/`.
Per §3/§4.4/§6 the libraries are consulted in priority order and the first
that can supply the module's blob wins; total failure raises a recoverable
`CodeIntelError`. -/
def importBlobName (module : String) (libs : List Lib) : Except Err Elem :=
  match libs.findSome? (fun l => l.getBlob? module) with
  | some b => .ok b
  | none => .error (.codeIntel ("could not import blob " ++ module))

/-- `_elem_from_scoperef`: walk the `names` maps along the path
(`KeyError` for a missing segment). -/
def elemFromScoperef : Elem → List String → Except Err Elem
  | elem, [] => .ok elem
  | elem, n :: rest =>
    match elem.namesGet n with
    | some c => elemFromScoperef c rest
    | none => .error (.python ("KeyError: " ++ n))

/-- The `ClassInstance` wrapper: the same element (same tag, children,
other attributes), but `get("ilk")` answers `"instance"`. -/
def classInstance (e : Elem) : Elem :=
  .mk e.tag (("ilk", "instance") :: e.attrs.filter (fun p => p.1 ≠ "ilk"))
    e.children

/-- `_set_reldirlib_from_blob(blob)`: if the blob records its source file,
put (or update) a `reldirlib` for the blob's directory at the front of the
evaluator's own libs copy. -/
def setReldirlibFromBlob (env : Env) (blob : Elem) (st : EvalSt) :
    Except Err EvalSt :=
  match blob.get "src" with
  | none => .ok st
  | some src =>
    if src ≠ "" ∧ blob.get "ilk" = some "blob" then
      match st.getLibs with
      | (libs, st) =>
        let reldirlib := env.getLangLib "reldirlib" [dirname src]
        match libs with
        | [] => .error (.python "IndexError: newlibs[0]")
        | l0 :: rest =>
          .ok (st.setLibs
            (if l0.name = "reldirlib" then reldirlib :: rest
             else reldirlib :: l0 :: rest))
    else .ok st

/-- The parent-directory probing of `ECMAScriptImportLibGenerator.__next__`:
walk up to 5 ancestor directories of the buffer path looking for
`<dir>/<import-name>/__init__.py`; the first match becomes a
`parentdirlib`. -/
def parentDirWalk (env : Env) (impName : String) :
    String → Nat → Option Lib
  | _, 0 => none
  | lookuppath, left + 1 =>
    if lookuppath = "" then none
    else if env.initExists
        (pathJoin (pathJoin lookuppath impName) "__init__.py") then
      some (env.getLangLib "parentdirlib" [lookuppath])
    else parentDirWalk env impName (dirname lookuppath) left

/-- The full lazily-yielded sequence of `ECMAScriptImportLibGenerator`
(`_add_parentdirlib`): the regular libs, then (only if the consumer
exhausts them) the parent-directory probe. -/
def addParentDirLib (env : Env) (libs : List Lib) (impTokens : List String) :
    List Lib :=
  match impTokens with
  | [] => libs
  | n0 :: _ =>
    let impName := ((pySplit1 n0 '/').headD n0)
    libs ++ (parentDirWalk env impName (dirname env.bufPath) 5).toList

/-- Result of a resolver step: the Python return value or the raised
exception, plus the evaluator state as left behind (mutations made before
a raise persist). -/
abbrev R (α : Type) : Type := (Except Err α) × EvalSt

/-- `elem.get("ilk") or elem.tag`. -/
def ilkOrTag (e : Elem) : String :=
  match e.get "ilk" with
  | some i => if i = "" then e.tag else i
  | none => e.tag

/-- The relative-import adjustment at the top of each iteration of
`_hit_from_elem_imports` (module names beginning with "."): rebase the
lookup on a `curdirlib` computed from the current `reldirlib` or the
buffer's own directory.  Returns `(allow_parentdirlib, symbol, module,
libs)`; a module reduced to nothing moves the symbol into the module
position. -/
def relAdjust (env : Env) (origLibs : List Lib) (symbol? : Option String)
    (module : String) :
    Except Err (Bool × Option String × Option String × List Lib) :=
  if pyStartsWith module "." then
    match origLibs with
    | [] => .error (.python "IndexError: libs[0]")
    | l0 :: _ =>
      match (if l0.name = "reldirlib" then l0.dirs.head?
             else some (dirname env.bufPath)) with
      | none => .error (.python "IndexError: libs[0].dirs[0]")
      | some lookup0 =>
        let modName := pyLstrip module
        let keep := if modName.length = 0 then ""
                    else module.take (module.length - modName.length)
        let libs := [env.getLangLib "curdirlib" [pathJoin lookup0 keep]]
        if modName = "" then .ok (false, none, symbol?, libs)
        else .ok (false, symbol?, some modName, libs)
  else .ok (true, symbol?, some module, origLibs)

/-- One pass of the trailing partial-submodule scan of
`_hit_from_elem_imports`: the first candidate whose first `i` segments
agree with the token sequence wins (an import failure there propagates —
the source wraps it in no `try`). -/
def partialInner (env : Env) (tokens : List String) (i : Nat)
    (libs : List Lib) : List (List String) → EvalSt → R (Option (Hit × Nat))
  | [], st => (.ok none, st)
  | mtks :: rest, st =>
    if mtks.take i = tokens.take i then
      match importBlobName (String.intercalate "/" (mtks.take i)) libs with
      | .error e => (.error e, st)
      | .ok blob =>
        match setReldirlibFromBlob env blob st with
        | .error e => (.error e, st)
        | .ok st => (.ok (some ((blob, (blob, [])), i)), st)
    else partialInner env tokens i libs rest st

/-- The descending-length partial-submodule-match block at the end of
`_hit_from_elem_imports`. -/
def partialOuter (env : Env) (tokens : List String)
    (possible : List (List String)) (libs : List Lib) :
    List Nat → EvalSt → R (Option (Hit × Nat))
  | [], st => (.ok none, st)
  | i :: more, st =>
    match partialInner env tokens i libs possible st with
    | (.error e, st) => (.error e, st)
    | (.ok (some hn), st) => (.ok (some hn), st)
    | (.ok none, st) => partialOuter env tokens possible libs more st

/-- `parent_scoperef_from_scoperef(scoperef)`. -/
def parentScoperefFromScoperef (scoperef : ScopeRef) (st : EvalSt) :
    (Except Err (Option ScopeRef)) × EvalSt :=
  match scoperef with
  | (blob, lpath) =>
    if lpath ≠ [] then
      let parentLpath := lpath.dropLast
      if parentLpath ≠ [] then
        match elemFromScoperef blob parentLpath with
        | .error e => (.error e, st)
        | .ok elem =>
          if elem.get "ilk" = some "class" ∨ elem.get "ilk" = some "instance"
          then (.ok (some (blob, parentLpath.dropLast)), st)
          else (.ok (some (blob, parentLpath)), st)
      else (.ok (some (blob, parentLpath)), st)
    else if st.builtin = some blob then (.ok none, st)
    else
      match st.builtInBlob with
      | .error e => (.error e, st)
      | .ok (b, st) => (.ok (some (b, [])), st)

/-! ## The hit resolver (`ECMAScriptTreeEvaluator`), fuel-indexed -/

mutual

/-- `_hit_from_citdl(expr, scoperef, variable, defn_only)`: tokenize and
resolve a CITDL expression down to a non-import/non-variable hit. -/
def hitFromCitdl (fuel : Nat) (env : Env) (expr : String) (scoperef : ScopeRef)
    (var? : Option Elem) (defnOnly : Bool) (st : EvalSt) : R Hit :=
  match fuel with
  | 0 => (.error .outOfFuel, st)
  | fuel + 1 =>
    match checkInfiniteRecursion expr st with
    | .error e => (.error e, st)
    | .ok st =>
      match hitFromTokens fuel env (tokenizeCitdlExpr expr) expr scoperef
          var? defnOnly st with
      | (.ok (hit, _), st) => (.ok hit, st)
      | (.error e, st) => (.error e, st)
termination_by structural fuel

/-- `_hit_from_tokens(tokens, expr, scoperef, variable, defn_only)`:
first-part resolution, then the remaining-token chain, then terminal
variable resolution. -/
def hitFromTokens (fuel : Nat) (env : Env) (tokens : List String)
    (expr : String) (scoperef : ScopeRef) (var? : Option Elem)
    (defnOnly : Bool) (st : EvalSt) : R (Hit × Nat) :=
  match fuel with
  | 0 => (.error .outOfFuel, st)
  | fuel + 1 =>
    match hitFromFirstPart fuel env tokens scoperef var? defnOnly st with
    | (.error e, st) => (.error e, st)
    | (.ok none, st) =>
      (.error (.codeIntel ("could not resolve first part of '" ++ expr ++ "'")),
        st)
    | (.ok (some (hit, nconsumed)), st) =>
      match chainLoop fuel env (tokens.drop nconsumed) hit scoperef defnOnly
          st with
      | (.error e, st) => (.error e, st)
      | (.ok hit, st) =>
        match varResolveLoop fuel env hit defnOnly st with
        | (.error e, st) => (.error e, st)
        | (.ok hit, st) => (.ok (hit, tokens.length), st)
termination_by structural fuel

/-- The remaining-tokens loop of `_hit_from_tokens`: a call-token goes to
call inference (consuming one token), anything else to getattr.
`argsScoperef` is the original scope the whole token chain started at. -/
def chainLoop (fuel : Nat) (env : Env) (remaining : List String) (hit : Hit)
    (argsScoperef : ScopeRef) (defnOnly : Bool) (st : EvalSt) : R Hit :=
  match fuel with
  | 0 => (.error .outOfFuel, st)
  | fuel + 1 =>
    match remaining with
    | [] => (.ok hit, st)
    | tok :: rest =>
      match tok.toList.head? with
      | none => (.error (.python "IndexError: remaining_tokens[0][0]"), st)
      | some c =>
        if c = '(' then
          match hitFromCall fuel env hit.1 hit.2 tok argsScoperef defnOnly
              st with
          | (.error e, st) => (.error e, st)
          | (.ok newHit, st) =>
            chainLoop fuel env rest newHit argsScoperef defnOnly st
        else
          match hitFromGetattr fuel env (tok :: rest) hit.1 hit.2 defnOnly
              st with
          | (.error e, st) => (.error e, st)
          | (.ok (newHit, n), st) =>
            chainLoop fuel env ((tok :: rest).drop n) newHit argsScoperef
              defnOnly st
termination_by structural fuel

/-- The terminal variable-resolution loop of `_hit_from_tokens` (also used
by the named-import path of `_hit_from_elem_imports`): while the element
is a `variable` — and, when `defn_only` is requested, only while it
carries `__no_defn__` — resolve its citdl from its own scope. -/
def varResolveLoop (fuel : Nat) (env : Env) (hit : Hit) (defnOnly : Bool)
    (st : EvalSt) : R Hit :=
  match fuel with
  | 0 => (.error .outOfFuel, st)
  | fuel + 1 =>
    if hit.1.tag = "variable" ∧
        (¬defnOnly ∨ "__no_defn__" ∈ pySplitWs (hit.1.getD "attributes" ""))
    then
      match hitFromVariableTypeInference fuel env hit.1 hit.2 defnOnly st with
      | (.error e, st) => (.error e, st)
      | (.ok hit, st) => varResolveLoop fuel env hit defnOnly st
    else (.ok hit, st)
termination_by structural fuel

/-- The unconditional `while elem.tag == "variable"` loops of
`_hit_from_call` and of the default-export descent of
`_hit_from_elem_imports`. -/
def plainVarLoop (fuel : Nat) (env : Env) (hit : Hit) (defnOnly : Bool)
    (st : EvalSt) : R Hit :=
  match fuel with
  | 0 => (.error .outOfFuel, st)
  | fuel + 1 =>
    if hit.1.tag = "variable" then
      match hitFromVariableTypeInference fuel env hit.1 hit.2 defnOnly st with
      | (.error e, st) => (.error e, st)
      | (.ok hit, st) => plainVarLoop fuel env hit defnOnly st
    else (.ok hit, st)
termination_by structural fuel

/-- `_hit_from_require(tokens, scoperef, variable, defn_only)` — the
Node.js/CommonJS `require()` special case (the unused `scoperef` parameter
of the source is dropped).  A `require(...)` call with no resolving
variable reproduces the source's unbound-`requirename` `NameError`. -/
def hitFromRequire (fuel : Nat) (env : Env) (tokens : List String)
    (var? : Option Elem) (defnOnly : Bool) (st : EvalSt) :
    R (Option (Hit × Nat)) :=
  match fuel with
  | 0 => (.error .outOfFuel, st)
  | fuel + 1 =>
    match tokens with
    | _ :: tok1 :: rest2 =>
      if tok1.toList.head? = some '(' then
        match var? with
        | none => (.error (.python "NameError: requirename"), st)
        | some v =>
          match v.get "required_library_name" with
          | none => (.error (.codeIntel "could not resolve require()"), st)
          | some requirename =>
            if requirename = "" then
              (.error (.codeIntel "could not resolve require()"), st)
            else
              let moduleName := pyLstrip requirename
              let fake : Elem :=
                .mk "import"
                  (("module", requirename) ::
                    (match rest2.head? with
                     | some s => [("symbol", s)]
                     | none => [])) []
              match hitFromElemImports fuel env (moduleName :: rest2.drop 1)
                  [fake] defnOnly st with
              | (.error e, st) => (.error e, st)
              | (.ok (some (hit, n)), st) =>
                (.ok (some (hit, n + (if rest2 = [] then 1 else 2))), st)
              | (.ok none, st) =>
                (.error (.codeIntel
                  ("could not resolve require(" ++ requirename ++ ")")), st)
      else (.ok none, st)
    | _ => (.ok none, st)
termination_by structural fuel

/-- `_hit_from_first_part(tokens, scoperef, variable, defn_only)`: the
`__builtins__` escape, the `require()` special case, then the scope-ascent
loop. -/
def hitFromFirstPart (fuel : Nat) (env : Env) (tokens : List String)
    (scoperef : ScopeRef) (var? : Option Elem) (defnOnly : Bool)
    (st : EvalSt) : R (Option (Hit × Nat)) :=
  match fuel with
  | 0 => (.error .outOfFuel, st)
  | fuel + 1 =>
    match tokens.head? with
    | none => (.error (.python "IndexError: tokens[0]"), st)
    | some firstToken =>
      if firstToken = "__builtins__" then
        match st.builtInBlob with
        | .error e => (.error e, st)
        | .ok (b, st) => (.ok (some ((b, (b, [])), 1)), st)
      else
        match
          (if firstToken = "require" then
            hitFromRequire fuel env tokens var? defnOnly st
          else (.ok none, st)) with
        | (.error e, st) => (.error e, st)
        | (.ok (some hn), st) => (.ok (some hn), st)
        | (.ok none, st) =>
          match elemFromScoperef scoperef.1 scoperef.2 with
          | .error e => (.error e, st)
          | .ok elem =>
            firstPartLoop fuel env tokens firstToken elem scoperef
              (elem.get "citdl") scoperef var? defnOnly st
termination_by structural fuel

/-- The scope-ascent `while True` loop of `_hit_from_first_part`;
`citdl?`/`citdlScoperef` are the starting scope's own deferred type,
captured before the ascent for the final one-shot indirection. -/
def firstPartLoop (fuel : Nat) (env : Env) (tokens : List String)
    (firstToken : String) (elem : Elem) (scoperef : ScopeRef)
    (citdl? : Option String) (citdlScoperef : ScopeRef)
    (var? : Option Elem) (defnOnly : Bool) (st : EvalSt) :
    R (Option (Hit × Nat)) :=
  match fuel with
  | 0 => (.error .outOfFuel, st)
  | fuel + 1 =>
    match
      (match elem.namesGet firstToken with
       | some item => if var? = some item then none else some item
       | none => none) with
    | some item => (.ok (some ((item, scoperef), 1)), st)
    | none =>
      match hitFromElemImports fuel env tokens elem.children defnOnly st with
      | (.error e, st) => (.error e, st)
      | (.ok (some hn), st) => (.ok (some hn), st)
      | (.ok none, st) =>
        if elem.get "name" = some firstToken ∧ elem.get "ilk" = some "blob"
        then (.ok (some ((elem, scoperef), 1)), st)
        else
          match parentScoperefFromScoperef scoperef st with
          | (.error e, st) => (.error e, st)
          | (.ok none, st) =>
            match citdl? with
            | some citdl =>
              if citdl ≠ "" then
                match hitFromTypeInference fuel env citdl citdlScoperef none
                    defnOnly st with
                | (.error (.codeIntel _), st) => (.ok none, st)
                | (.error e, st) => (.error e, st)
                | (.ok (_, itemScoperef), st) =>
                  hitFromFirstPart fuel env tokens itemScoperef none defnOnly
                    st
              else (.ok none, st)
            | none => (.ok none, st)
          | (.ok (some parentSc), st) =>
            match elemFromScoperef parentSc.1 parentSc.2 with
            | .error e => (.error e, st)
            | .ok elem' =>
              firstPartLoop fuel env tokens firstToken elem' parentSc citdl?
                citdlScoperef var? defnOnly st
termination_by structural fuel

/-- `_hit_from_elem_imports(tokens, elem, defn_only)`; `elemIter` is the
Python iteration of `elem` (its children for a tree element, the fake
element itself for a `FakeImport`). -/
def hitFromElemImports (fuel : Nat) (env : Env) (tokens : List String)
    (elemIter : List Elem) (defnOnly : Bool) (st : EvalSt) :
    R (Option (Hit × Nat)) :=
  match fuel with
  | 0 => (.error .outOfFuel, st)
  | fuel + 1 =>
    match tokens.head? with
    | none => (.error (.python "IndexError: tokens[0]"), st)
    | some firstToken =>
      match checkInfiniteRecursion firstToken st with
      | .error e => (.error e, st)
      | .ok st =>
        match st.getLibs with
        | (origLibs, st) =>
          importsLoop fuel env tokens firstToken
            (elemIter.filter (fun i => i.tag = "import")) origLibs defnOnly
            [] true none st
termination_by structural fuel

/-- The per-import loop of `_hit_from_elem_imports`, followed (once the
imports are exhausted) by its partial-submodule-match block.  `possible`,
`lastAllow` and `lastModTokens` carry the loop-leaked Python locals
`possible_submodule_tokens`, `allow_parentdirlib` and `module_tokens`. -/
def importsLoop (fuel : Nat) (env : Env) (tokens : List String)
    (firstToken : String) (imps : List Elem) (origLibs : List Lib)
    (defnOnly : Bool) (possible : List (List String)) (lastAllow : Bool)
    (lastModTokens : Option (List String)) (st : EvalSt) :
    R (Option (Hit × Nat)) :=
  match fuel with
  | 0 => (.error .outOfFuel, st)
  | fuel + 1 =>
    match imps with
    | [] =>
      match possible, lastModTokens with
      | [], _ => (.ok none, st)
      | _ :: _, none => (.ok none, st)
      | _ :: _, some mt =>
        partialOuter env tokens possible
          (if lastAllow then addParentDirLib env origLibs mt else origLibs)
          ((List.range (mt.length - 1)).reverse.map (fun j => j + 1)) st
    | imp :: more =>
      match imp.get "module" with
      | none => (.error (.python "AttributeError: module is None"), st)
      | some module0 =>
        let alias? := imp.get "alias"
        let aliasTruthy := match alias? with | some a => a != "" | none => false
        match relAdjust env origLibs (imp.get "symbol") module0 with
        | .error e => (.error e, st)
        | .ok (allow, symbol?, module?, libs) =>
          if symbol? = some "*" then
            match module? with
            | none => (.error (.python "AttributeError: module is None"), st)
            | some module =>
              match importBlobName module
                  (if allow then addParentDirLib env libs (pySplit1 module '/')
                   else libs) with
              | .error (.codeIntel _) =>
                importsLoop fuel env tokens firstToken more origLibs defnOnly
                  possible allow lastModTokens st
              | .error e => (.error e, st)
              | .ok blob =>
                match setReldirlibFromBlob env blob st with
                | .error e => (.error e, st)
                | .ok st =>
                  match hitFromGetattr fuel env tokens blob (blob, [])
                      defnOnly st with
                  | (.error (.codeIntel _), st) =>
                    importsLoop fuel env tokens firstToken more origLibs
                      defnOnly possible allow lastModTokens st
                  | (.error e, st) => (.error e, st)
                  | (.ok (hit, n), st) => (.ok (some (hit, n)), st)
          else if (aliasTruthy && alias? == some firstToken) ||
              (!aliasTruthy && symbol? == some firstToken) ||
              (!aliasTruthy && module? == some firstToken) then
            namedImportCase fuel env tokens firstToken more origLibs defnOnly
              possible allow lastModTokens symbol? module? libs st
          else
            match module? with
            | none => (.error (.python "TypeError: module is None"), st)
            | some module =>
              if module.toList.contains '/' then
                let modTokens := pySplit1 module '/'
                if modTokens = tokens.take modTokens.length then
                  match importBlobName module
                      (if allow then addParentDirLib env libs modTokens
                       else libs) with
                  | .error e => (.error e, st)
                  | .ok blob =>
                    match setReldirlibFromBlob env blob st with
                    | .error e => (.error e, st)
                    | .ok st =>
                      (.ok (some ((blob, (blob, [])), modTokens.length)), st)
                else if modTokens.head? = some firstToken then
                  importsLoop fuel env tokens firstToken more origLibs
                    defnOnly (possible ++ [modTokens]) allow (some modTokens)
                    st
                else
                  importsLoop fuel env tokens firstToken more origLibs
                    defnOnly possible allow (some modTokens) st
              else
                importsLoop fuel env tokens firstToken more origLibs defnOnly
                  possible allow lastModTokens st
termination_by structural fuel

/-- The named/aliased-import case of `_hit_from_elem_imports`: import the
module, run the export lookup, resolve terminal variables, and on failure
fall back to the module's own imports (re-export chains), else continue
with the remaining imports. -/
def namedImportCase (fuel : Nat) (env : Env) (tokens : List String)
    (firstToken : String) (more : List Elem) (origLibs : List Lib)
    (defnOnly : Bool) (possible : List (List String)) (allow : Bool)
    (lastModTokens : Option (List String)) (symbol? module? : Option String)
    (libs : List Lib) (st : EvalSt) : R (Option (Hit × Nat)) :=
  match fuel with
  | 0 => (.error .outOfFuel, st)
  | fuel + 1 =>
    let symbolName :=
      match symbol? with
      | some s => if s = "" then "default" else s
      | none => "default"
    match module? with
    | none => (.error (.python "TypeError: module is None"), st)
    | some module =>
      match importBlobName module
          (if allow then addParentDirLib env libs (pySplit1 module '/')
           else libs) with
      | .error (.codeIntel _) =>
        importsLoop fuel env tokens firstToken more origLibs defnOnly possible
          allow lastModTokens st
      | .error e => (.error e, st)
      | .ok blob =>
        match setReldirlibFromBlob env blob st with
        | .error e => (.error e, st)
        | .ok st =>
          match exportsLoop fuel env symbolName
              (match blob.namesGet "exports" with
               | some x => x
               | none => blob) (blob, []) defnOnly st with
          | (.error e, st) => (.error e, st)
          | (.ok (some el, scoperefF), st) =>
            match varResolveLoop fuel env (el, scoperefF) defnOnly st with
            | (.error e, st) => (.error e, st)
            | (.ok hit, st) => (.ok (some (hit, 1)), st)
          | (.ok (none, scoperefF), st) =>
            match hitFromElemImports fuel env (firstToken :: tokens.drop 1)
                scoperefF.1.children defnOnly st with
            | (.error (.codeIntel _), st) =>
              importsLoop fuel env tokens firstToken more origLibs defnOnly
                possible allow lastModTokens st
            | (.error e, st) => (.error e, st)
            | (.ok (some hn), st) => (.ok (some hn), st)
            | (.ok none, st) =>
              importsLoop fuel env tokens firstToken more origLibs defnOnly
                possible allow lastModTokens st
termination_by structural fuel

/-- The `while True` export-lookup loop of the named-import case: find the
symbol among the exports, fall back to the exports object itself for a
`default` request, or descend into an explicit `default` export (resolving
intermediate variables) and retry. -/
def exportsLoop (fuel : Nat) (env : Env) (symbolName : String)
    (exports : Elem) (scoperef : ScopeRef) (defnOnly : Bool) (st : EvalSt) :
    R (Option Elem × ScopeRef) :=
  match fuel with
  | 0 => (.error .outOfFuel, st)
  | fuel + 1 =>
    match exports.namesGet symbolName with
    | some el =>
      (.ok (some el, (scoperef.1, scoperef.2 ++ [exports.getD "name" ""])), st)
    | none =>
      if symbolName = "default" then (.ok (some exports, scoperef), st)
      else
        match exports.namesGet "default" with
        | some d =>
          match plainVarLoop fuel env (d, scoperef) defnOnly st with
          | (.error e, st) => (.error e, st)
          | (.ok hit, st) =>
            exportsLoop fuel env symbolName hit.1 hit.2 defnOnly st
        | none => (.ok (none, scoperef), st)
termination_by structural fuel

/-- `_hit_from_call(elem, scoperef, args, args_scoperef, defn_only)`:
resolve intermediate variables, construct an instance for a class callee,
or follow a function's recorded return type — substituting the matching
literal call argument for an `__argK` placeholder and resolving it at the
caller's scope.  An `__argK` whose index does not parse as a decimal
numeral keeps the placeholder, as does an out-of-range index. -/
def hitFromCall (fuel : Nat) (env : Env) (elem : Elem) (scoperef : ScopeRef)
    (args : String) (argsScoperef : ScopeRef) (defnOnly : Bool)
    (st : EvalSt) : R Hit :=
  match fuel with
  | 0 => (.error .outOfFuel, st)
  | fuel + 1 =>
    match plainVarLoop fuel env (elem, scoperef) defnOnly st with
    | (.error e, st) => (.error e, st)
    | (.ok (elem, scoperef), st) =>
      if elem.get "ilk" = some "class" then
        (.ok (classInstance elem, scoperef), st)
      else if elem.get "ilk" = some "function" then
        match elem.get "returns" with
        | some citdl =>
          if citdl ≠ "" then
            if pyStartsWith citdl "__arg" then
              match
                (match pyToNat (citdl.drop 5) with
                 | some k =>
                   pyIndex (pySplit1 ((args.drop 1).dropRight 1) ',')
                     ((k : Int) - 1)
                 | none => none) with
              | some arg =>
                if ¬ pyStartsWith arg "__arg" then
                  hitFromCitdl fuel env arg argsScoperef none defnOnly st
                else hitFromCitdl fuel env citdl scoperef none defnOnly st
              | none => hitFromCitdl fuel env citdl scoperef none defnOnly st
            else hitFromCitdl fuel env citdl scoperef none defnOnly st
          else (.error (.codeIntel "no return type info"), st)
        | none => (.error (.codeIntel "no return type info"), st)
      else (.error (.codeIntel "no return type info"), st)
termination_by structural fuel

/-- `_hit_from_getattr(tokens, elem, scoperef, defn_only)`. -/
def hitFromGetattr (fuel : Nat) (env : Env) (tokens : List String)
    (elem : Elem) (scoperef : ScopeRef) (defnOnly : Bool) (st : EvalSt) :
    R (Hit × Nat) :=
  match fuel with
  | 0 => (.error .outOfFuel, st)
  | fuel + 1 =>
    match tokens.head? with
    | none => (.error (.python "IndexError: tokens[0]"), st)
    | some firstToken =>
      if elem.tag = "variable" then
        match elem.namesGet firstToken with
        | some attr =>
          (.ok ((attr, (scoperef.1, scoperef.2 ++ [elem.getD "name" ""])), 1),
            st)
        | none =>
          match elem.get "citdl" with
          | some citdl =>
            if citdl ≠ "" then
              match checkInfiniteRecursion citdl st with
              | .error e => (.error e, st)
              | .ok st =>
                hitFromTokens fuel env (tokenizeCitdlExpr citdl ++ tokens)
                  citdl scoperef (some elem) defnOnly st
            else (.error (.codeIntel "no type-inference info"), st)
          | none => (.error (.codeIntel "no type-inference info"), st)
      else if elem.tag = "scope" then
        let ilk := elem.get "ilk"
        if ilk = some "function" then
          match elem.namesGet firstToken with
          | some attr =>
            if ilk = some "class" ∨ ilk = some "instance" ∨
                ilk = some "object" ∨ ilk = some "interface" ∨
                ilk = some "function" then
              (.ok ((attr, (scoperef.1, scoperef.2 ++ [elem.getD "name" ""])),
                1), st)
            else getattrBottom fuel env tokens elem scoperef defnOnly st
          | none => getattrBottom fuel env tokens elem scoperef defnOnly st
        else if ilk = some "class" ∨ ilk = some "instance" then
          match elem.namesGet firstToken with
          | some attr =>
            (.ok ((attr, (scoperef.1, scoperef.2 ++ [elem.getD "name" ""])),
              1), st)
          | none =>
            match hitFromElemImports fuel env tokens elem.children defnOnly
                st with
            | (.error e, st) => (.error e, st)
            | (.ok (some hn), st) => (.ok hn, st)
            | (.ok none, st) =>
              match getattrRefsLoop fuel env tokens
                  (pySplitWs (elem.getD "classrefs" "")) scoperef defnOnly
                  st with
              | (.error e, st) => (.error e, st)
              | (.ok (some hn), st) => (.ok hn, st)
              | (.ok none, st) =>
                getattrBottom fuel env tokens elem scoperef defnOnly st
        else if ilk = some "object" then
          match elem.namesGet firstToken with
          | some attr =>
            (.ok ((attr, (scoperef.1, scoperef.2 ++ [elem.getD "name" ""])),
              1), st)
          | none =>
            match hitFromElemImports fuel env tokens elem.children defnOnly
                st with
            | (.error e, st) => (.error e, st)
            | (.ok (some hn), st) => (.ok hn, st)
            | (.ok none, st) =>
              match getattrRefsLoop fuel env tokens
                  (pySplitWs (elem.getD "objectrefs" "")) scoperef defnOnly
                  st with
              | (.error e, st) => (.error e, st)
              | (.ok (some hn), st) => (.ok hn, st)
              | (.ok none, st) =>
                getattrBottom fuel env tokens elem scoperef defnOnly st
        else if ilk = some "interface" then
          match elem.namesGet firstToken with
          | some attr =>
            (.ok ((attr, (scoperef.1, scoperef.2 ++ [elem.getD "name" ""])),
              1), st)
          | none =>
            match hitFromElemImports fuel env tokens elem.children defnOnly
                st with
            | (.error e, st) => (.error e, st)
            | (.ok (some hn), st) => (.ok hn, st)
            | (.ok none, st) =>
              match getattrRefsLoop fuel env tokens
                  (pySplitWs (elem.getD "interfacerefs" "")) scoperef defnOnly
                  st with
              | (.error e, st) => (.error e, st)
              | (.ok (some hn), st) => (.ok hn, st)
              | (.ok none, st) =>
                getattrBottom fuel env tokens elem scoperef defnOnly st
        else if ilk = some "blob" then
          match elem.namesGet firstToken with
          | some attr => (.ok ((attr, scoperef), 1), st)
          | none =>
            match hitFromElemImports fuel env tokens elem.children defnOnly
                st with
            | (.error e, st) => (.error e, st)
            | (.ok (some hn), st) => (.ok hn, st)
            | (.ok none, st) =>
              getattrBottom fuel env tokens elem scoperef defnOnly st
        else (.error (.notImplemented "unexpected scope ilk"), st)
      else (.error (.python "AssertionError: elem.tag == 'scope'"), st)
termination_by structural fuel

/-- The inheritance-edge loop of the class/object/interface branches of
`_hit_from_getattr`: try each base reference depth-first, catching only
`CodeIntelError` (first success wins). -/
def getattrRefsLoop (fuel : Nat) (env : Env) (tokens : List String)
    (refs : List String) (scoperef : ScopeRef) (defnOnly : Bool)
    (st : EvalSt) : R (Option (Hit × Nat)) :=
  match fuel with
  | 0 => (.error .outOfFuel, st)
  | fuel + 1 =>
    match refs with
    | [] => (.ok none, st)
    | ref :: rest =>
      match hitFromTypeInference fuel env ref scoperef none defnOnly st with
      | (.error (.codeIntel _), st) =>
        getattrRefsLoop fuel env tokens rest scoperef defnOnly st
      | (.error e, st) => (.error e, st)
      | (.ok (baseElem, baseScoperef), st) =>
        match hitFromGetattr fuel env tokens baseElem baseScoperef defnOnly
            st with
        | (.error (.codeIntel _), st) =>
          getattrRefsLoop fuel env tokens rest scoperef defnOnly st
        | (.error e, st) => (.error e, st)
        | (.ok hn, st) => (.ok (some hn), st)
termination_by structural fuel

/-- The trailing "Scope with citdl type" fallback of `_hit_from_getattr`.
The source passes `defn_only` positionally into the `variable` slot of
`_hit_from_type_inference` there (line 986), so the sub-resolution runs
with an inert variable filter and `defn_only=False`. -/
def getattrBottom (fuel : Nat) (env : Env) (tokens : List String)
    (elem : Elem) (scoperef : ScopeRef) (defnOnly : Bool) (st : EvalSt) :
    R (Hit × Nat) :=
  match fuel with
  | 0 => (.error .outOfFuel, st)
  | fuel + 1 =>
    match elem.get "citdl" with
    | some citdl =>
      if citdl ≠ "" then
        match hitFromTypeInference fuel env citdl scoperef none false st with
        | (.error e, st) => (.error e, st)
        | (.ok (elem', scoperef'), st) =>
          hitFromGetattr fuel env tokens elem' scoperef' defnOnly st
      else (.error (.codeIntel "could not resolve getattr"), st)
    | none => (.error (.codeIntel "could not resolve getattr"), st)
termination_by structural fuel

/-- `_hit_from_variable_type_inference(elem, scoperef, defn_only)`:
resolve the variable's citdl as a fresh expression rooted at the
variable's own scope, blocking direct self-lookup. -/
def hitFromVariableTypeInference (fuel : Nat) (env : Env) (elem : Elem)
    (scoperef : ScopeRef) (defnOnly : Bool) (st : EvalSt) : R Hit :=
  match fuel with
  | 0 => (.error .outOfFuel, st)
  | fuel + 1 =>
    match elem.get "citdl" with
    | some citdl =>
      if citdl ≠ "" then
        hitFromCitdl fuel env citdl scoperef (some elem) defnOnly st
      else (.error (.codeIntel "no type-inference info"), st)
    | none => (.error (.codeIntel "no type-inference info"), st)
termination_by structural fuel

/-- `_hit_from_type_inference(citdl, scoperef, variable, defn_only)`. -/
def hitFromTypeInference (fuel : Nat) (env : Env) (citdl : String)
    (scoperef : ScopeRef) (var? : Option Elem) (defnOnly : Bool)
    (st : EvalSt) : R Hit :=
  match fuel with
  | 0 => (.error .outOfFuel, st)
  | fuel + 1 => hitFromCitdl fuel env citdl scoperef var? defnOnly st
termination_by structural fuel

/-- `_members_from_elem(elem)`: the completion entries one child element
contributes (several for a `*`-import). -/
def membersFromElem (fuel : Nat) (env : Env) (elem : Elem) (st : EvalSt) :
    R (Finset (String × Option String)) :=
  match fuel with
  | 0 => (.error .outOfFuel, st)
  | fuel + 1 =>
    if elem.tag = "import" then
      match elem.get "module" with
      | none => (.error (.python "AttributeError: module is None"), st)
      | some moduleName =>
        let alias? := elem.get "alias"
        let aliasTruthy :=
          match alias? with | some a => a != "" | none => false
        match elem.get "symbol" with
        | some symbolName =>
          if symbolName ≠ "" then
            match st.getLibs with
            | (libs, st) =>
              match importBlobName moduleName libs with
              | .error e => (.error e, st)
              | .ok blob =>
                if symbolName = "*" then
                  (.ok (blob.namesItems.map
                    (fun p => (ilkOrTag p.2, some p.1))).toFinset, st)
                else
                  let cplnName :=
                    if aliasTruthy then alias?.getD "" else symbolName
                  match blob.namesGet symbolName with
                  | some symbol =>
                    (.ok {(ilkOrTag symbol, some cplnName)}, st)
                  | none =>
                    match hitFromElemImports fuel env [symbolName]
                        blob.children false st with
                    | (.error e, st) => (.error e, st)
                    | (.ok (some (hit, _)), st) =>
                      (.ok {(ilkOrTag hit.1, some cplnName)}, st)
                    | (.ok none, st) => (.ok ∅, st)
          else
            (.ok {("module",
              some (if aliasTruthy then alias?.getD ""
                    else (pySplit1 moduleName '/').headD moduleName))}, st)
        | none =>
          (.ok {("module",
            some (if aliasTruthy then alias?.getD ""
                  else (pySplit1 moduleName '/').headD moduleName))}, st)
    else (.ok {(ilkOrTag elem, elem.get "name")}, st)

/-- `_members_from_hit(hit, defn_only, hidden)`: members of the element's
visible children, of its inheritance edges, and of its residual citdl
type, under the per-ilk hidden-attribute filter. -/
def membersFromHit (fuel : Nat) (env : Env) (hit : Hit) (defnOnly : Bool)
    (hidden? : Option (List String)) (st : EvalSt) :
    R (Finset (String × Option String)) :=
  match fuel with
  | 0 => (.error .outOfFuel, st)
  | fuel + 1 =>
    let ilk := hit.1.get "ilk"
    let refsAttr : Option String :=
      if ilk = some "class" ∨ ilk = some "instance" then some "classrefs"
      else if ilk = some "interface" then some "interfacerefs"
      else if ilk = some "object" then some "objectrefs"
      else none
    let hidden := hidden?.getD
      (if ilk = some "class" then ["__hidden__", "__instancevar__"]
       else if ilk = some "instance" then
         ["__hidden__", "__staticmethod__", "__ctor__"]
       else ["__hidden__"])
    match membersChildrenLoop fuel env hit.1.children hidden ∅ st with
    | (.error e, st) => (.error e, st)
    | (.ok members, st) =>
      match
        (match refsAttr with
         | some refsName =>
           membersRefsLoop fuel env (pySplitWs (hit.1.getD refsName ""))
             hit.2 defnOnly hidden members st
         | none => (.ok members, st)) with
      | (.error e, st) => (.error e, st)
      | (.ok members, st) =>
        match hit.1.get "citdl" with
        | some citdl =>
          if citdl ≠ "" then
            match hitFromTypeInference fuel env citdl hit.2 none false st with
            | (.error (.codeIntel _), st) => (.ok members, st)
            | (.error e, st) => (.error e, st)
            | (.ok subhit, st) =>
              match membersFromHit fuel env subhit defnOnly (some hidden)
                  st with
              | (.error e, st) => (.error e, st)
              | (.ok m2, st) => (.ok (members ∪ m2), st)
          else (.ok members, st)
        | none => (.ok members, st)
termination_by structural fuel

/-- The visible-children loop of `_members_from_hit`: children carrying a
hidden attribute are skipped, per-child `CodeIntelError`s are warnings. -/
def membersChildrenLoop (fuel : Nat) (env : Env) (children : List Elem)
    (hidden : List String) (acc : Finset (String × Option String))
    (st : EvalSt) : R (Finset (String × Option String)) :=
  match fuel with
  | 0 => (.error .outOfFuel, st)
  | fuel + 1 =>
    match children with
    | [] => (.ok acc, st)
    | child :: rest =>
      if hidden.any (fun a => a ∈ pySplitWs (child.getD "attributes" ""))
      then membersChildrenLoop fuel env rest hidden acc st
      else
        match membersFromElem fuel env child st with
        | (.error (.codeIntel _), st) =>
          membersChildrenLoop fuel env rest hidden acc st
        | (.error e, st) => (.error e, st)
        | (.ok m, st) => membersChildrenLoop fuel env rest hidden (acc ∪ m) st
termination_by structural fuel

/-- The inheritance-edge loop of `_members_from_hit`: each resolvable base
contributes its members under the same hidden filter; unresolvable bases
are warnings. -/
def membersRefsLoop (fuel : Nat) (env : Env) (refs : List String)
    (scoperef : ScopeRef) (defnOnly : Bool) (hidden : List String)
    (acc : Finset (String × Option String)) (st : EvalSt) :
    R (Finset (String × Option String)) :=
  match fuel with
  | 0 => (.error .outOfFuel, st)
  | fuel + 1 =>
    match refs with
    | [] => (.ok acc, st)
    | ref :: rest =>
      match hitFromTypeInference fuel env ref scoperef none defnOnly st with
      | (.error (.codeIntel _), st) =>
        membersRefsLoop fuel env rest scoperef defnOnly hidden acc st
      | (.error e, st) => (.error e, st)
      | (.ok subhit, st) =>
        match membersFromHit fuel env subhit defnOnly (some hidden) st with
        | (.error e, st) => (.error e, st)
        | (.ok m, st) =>
          membersRefsLoop fuel env rest scoperef defnOnly hidden (acc ∪ m) st

termination_by structural fuel
end

/-- The general-expression path of the completion entry point
`eval_cplns`: resolve the expression, then project its members. -/
def evalCplns (fuel : Nat) (env : Env) (expr : String) (scoperef : ScopeRef)
    (st : EvalSt) : R (Finset (String × Option String)) :=
  match hitFromCitdl fuel env expr scoperef none false st with
  | (.error e, st) => (.error e, st)
  | (.ok hit, st) => membersFromHit fuel env hit false none st

/-! ## Concrete scenarios used by the claim theorems -/

/-- A stdlib `Number` class. -/
def numberClass : Elem := .mk "scope" [("name","Number"),("ilk","class")] []

/-- A stdlib catch-all blob `*` holding `Number`. -/
def builtinBlob : Elem := .mk "scope" [("name","*"),("ilk","blob")] [numberClass]

/-- A library stack holding only the stdlib. -/
def libsD : List Lib := [⟨"stdlib", [], [("*", builtinBlob)]⟩]

/-- A fixed evaluation context for the scenarios. -/
def envA : Env := ⟨"/proj/foo.js", fun n d => ⟨n, d, []⟩, fun _ => false⟩

/-- Variable `A` of the two-step cycle (`A → B → A`). -/
def cycA : Elem := .mk "variable" [("name","A"),("citdl","B")] []

/-- Variable `B` of the two-step cycle. -/
def cycB : Elem := .mk "variable" [("name","B"),("citdl","A")] []

/-- A blob holding the two-step cycle. -/
def blob2 : Elem := .mk "scope" [("name","e2"),("ilk","blob")] [cycA, cycB]

/-- Evaluator state mid-way through the cycle run: sentinel counters at
`a` for `A` and `b` for `B`. -/
def stA (a b : Nat) : EvalSt := ⟨libsD, none, none, [("A", a), ("B", b)]⟩

/-- A directly self-referential variable (`A` with citdl `A`). -/
def varA3 : Elem := .mk "variable" [("name","A"),("citdl","A")] []

/-- A blob holding only the self-referential variable. -/
def blobE1 : Elem := .mk "scope" [("name","e"),("ilk","blob")] [varA3]

/-- The exported variable `bar` of the named-import scenario. -/
def varBar : Elem := .mk "variable" [("name","bar"),("citdl","Number"),("line","3")] []

/-- The module blob `bar` (with a recorded source file). -/
def barBlob : Elem := .mk "scope" [("name","bar"),("ilk","blob"),("src","/proj/bar.js")] [varBar]

/-- `import Bar from "bar"` (module `bar`, alias `Bar`). -/
def impBar : Elem := .mk "import" [("module","bar"),("alias","Bar")] []

/-- The importing blob `foo`. -/
def fooBlob : Elem := .mk "scope" [("name","foo"),("ilk","blob")] [impBar]

/-- Library stack for the named-import scenario: a `curdirlib` that can
supply `bar`, then the stdlib. -/
def libsA : List Lib := [⟨"curdirlib", ["/proj"], [("bar", barBlob)]⟩, ⟨"stdlib", [], [("*", builtinBlob)]⟩]

/-- A plain variable with a citdl and no attributes. -/
def varX : Elem := .mk "variable" [("name","x"),("citdl","Number")] []

/-- A variable flagged `__no_defn__`. -/
def varY : Elem := .mk "variable" [("name","y"),("citdl","Number"),("attributes","__no_defn__")] []

/-- A blob holding `x`, `y` and a local `Number` class. -/
def blobD : Elem := .mk "scope" [("name","d"),("ilk","blob")] [varX, varY, numberClass]

/-- A class with one member of each kind: a constructor, a static
method, an instance variable and a plain method. -/
def klass : Elem := .mk "scope" [("name","K"),("ilk","class")]
  [.mk "scope" [("name","ctor"),("ilk","function"),("attributes","__ctor__")] [],
   .mk "scope" [("name","s"),("ilk","function"),("attributes","__staticmethod__")] [],
   .mk "variable" [("name","iv"),("attributes","__instancevar__")] [],
   .mk "scope" [("name","m"),("ilk","function")] []]

/-- An `object`-ilk scope, used as a callee. -/
def objScope : Elem := .mk "scope" [("name","o"),("ilk","object")] []

/-- A function whose recorded return type is the placeholder `__arg1`. -/
def fnArg : Elem := .mk "scope" [("name","f"),("ilk","function"),("returns","__arg1")] []

/-- The class the literal `42` resolves to in the placeholder scenario. -/
def lit42 : Elem := .mk "scope" [("name","42"),("ilk","class")] []

/-- A blob holding `f` and the literal class `42`. -/
def blobB : Elem := .mk "scope" [("name","b"),("ilk","blob")] [fnArg, lit42]

/-- A blob with a class `K`, a method `K.m` and a local `K.m.v`, for the
parent-scoperef cases. -/
def klassBlob : Elem := .mk "scope" [("name","p"),("ilk","blob")]
  [.mk "scope" [("name","K"),("ilk","class")]
    [.mk "scope" [("name","m"),("ilk","function")]
      [.mk "variable" [("name","v")] []]]]

/-- `cix_function`'s best-return-type selection (`ecmacile.py` lines
652–657), fold state `(best_citdl, max_count)`: the loop compares
`count > max_count` but its body only assigns `best_citdl`, never
`max_count`. -/
def cix_function_best_citdl (returns : List (String × Nat)) : Option String :=
  (returns.foldl
    (fun acc p => if p.2 > acc.2 then (some p.1, acc.2) else acc)
    ((none : Option String), 0)).1

/-- The spec's words for the same selection: "pick the entry with the
highest count" (first maximal entry). -/
def spec_best_return_citdl (returns : List (String × Nat)) : Option String :=
  (returns.foldl
    (fun acc p =>
      match acc with
      | none => some p
      | some q => if p.2 > q.2 then some p else some q)
    (none : Option (String × Nat))).map Prod.fst

/-- Whether a resolver outcome is the `CycleDetected` error. -/
def isCycleResult : Except Err Hit → Bool
  | .error (.cycle _) => true
  | _ => false

/-- Structural decidable equality for resolver outcomes (used by the
concrete member-set checks). -/
instance exceptDecEq {E A : Type} [DecidableEq E] [DecidableEq A] :
    DecidableEq (Except E A) := fun x y =>
  match x, y with
  | .ok a, .ok b =>
    if h : a = b then isTrue (by rw [h])
    else isFalse (fun hh => by cases hh; exact h rfl)
  | .error a, .error b =>
    if h : a = b then isTrue (by rw [h])
    else isFalse (fun hh => by cases hh; exact h rfl)
  | .ok a, .error b => isFalse (fun hh => by cases hh)
  | .error a, .ok b => isFalse (fun hh => by cases hh)

/-- The conjunction, over all eighteen mutually recursive resolver
functions, of "the final state carries the buffer library list the input
state carried". -/
abbrev PresAll (fuel : Nat) : Prop :=
    (∀ env expr sc v d st,
      ((hitFromCitdl fuel env expr sc v d st).2).bufLibs = st.bufLibs) ∧
    (∀ env tokens expr sc v d st,
      ((hitFromTokens fuel env tokens expr sc v d st).2).bufLibs = st.bufLibs) ∧
    (∀ env rem hit asc d st,
      ((chainLoop fuel env rem hit asc d st).2).bufLibs = st.bufLibs) ∧
    (∀ env hit d st,
      ((varResolveLoop fuel env hit d st).2).bufLibs = st.bufLibs) ∧
    (∀ env hit d st,
      ((plainVarLoop fuel env hit d st).2).bufLibs = st.bufLibs) ∧
    (∀ env tokens v d st,
      ((hitFromRequire fuel env tokens v d st).2).bufLibs = st.bufLibs) ∧
    (∀ env tokens sc v d st,
      ((hitFromFirstPart fuel env tokens sc v d st).2).bufLibs = st.bufLibs) ∧
    (∀ env tokens ft elem sc c csc v d st,
      ((firstPartLoop fuel env tokens ft elem sc c csc v d st).2).bufLibs =
        st.bufLibs) ∧
    (∀ env tokens it d st,
      ((hitFromElemImports fuel env tokens it d st).2).bufLibs = st.bufLibs) ∧
    (∀ env tokens ft imps ol d ps la lm st,
      ((importsLoop fuel env tokens ft imps ol d ps la lm st).2).bufLibs =
        st.bufLibs) ∧
    (∀ env tokens ft more ol d ps la lm sy mo libs st,
      ((namedImportCase fuel env tokens ft more ol d ps la lm sy mo libs
        st).2).bufLibs = st.bufLibs) ∧
    (∀ env sn ex sc d st,
      ((exportsLoop fuel env sn ex sc d st).2).bufLibs = st.bufLibs) ∧
    (∀ env elem sc args asc d st,
      ((hitFromCall fuel env elem sc args asc d st).2).bufLibs = st.bufLibs) ∧
    (∀ env tokens elem sc d st,
      ((hitFromGetattr fuel env tokens elem sc d st).2).bufLibs = st.bufLibs) ∧
    (∀ env tokens refs sc d st,
      ((getattrRefsLoop fuel env tokens refs sc d st).2).bufLibs = st.bufLibs) ∧
    (∀ env tokens elem sc d st,
      ((getattrBottom fuel env tokens elem sc d st).2).bufLibs = st.bufLibs) ∧
    (∀ env elem sc d st,
      ((hitFromVariableTypeInference fuel env elem sc d st).2).bufLibs =
        st.bufLibs) ∧
    (∀ env citdl sc v d st,
      ((hitFromTypeInference fuel env citdl sc v d st).2).bufLibs = st.bufLibs)


/-! ## The resolver never mutates the shared `buf.libs` -/

theorem hop2 {α : Type} {x : α × EvalSt} {r : α} {st2 st1 : EvalSt}
    {s : List Lib} (hx : x = (r, st2)) (hih : x.2.bufLibs = st1.bufLibs)
    (hrec : st1.bufLibs = s) : st2.bufLibs = s := by
  rw [hx] at hih
  exact hih.trans hrec

theorem bstep {α : Type} {x : α × EvalSt} {st1 : EvalSt} {s : List Lib}
    (hih : x.2.bufLibs = st1.bufLibs) (hrec : st1.bufLibs = s) :
    x.2.bufLibs = s := hih.trans hrec

theorem getLibs_pres {st : EvalSt} {l : List Lib} {st' : EvalSt}
    (h : st.getLibs = (l, st')) : st'.bufLibs = st.bufLibs := by
  unfold EvalSt.getLibs at h
  cases hs : st.shadowLibs <;> rw [hs] at h <;> cases h <;> rfl

theorem getLibs_bufLibs (st : EvalSt) :
    (st.getLibs).2.bufLibs = st.bufLibs := by
  unfold EvalSt.getLibs
  cases st.shadowLibs <;> rfl

theorem check_pres {e : String} {st st' : EvalSt}
    (h : checkInfiniteRecursion e st = .ok st') : st'.bufLibs = st.bufLibs := by
  unfold checkInfiniteRecursion at h
  dsimp only at h
  split at h
  · cases h
  · cases h; rfl

theorem builtin_pres {st : EvalSt} {b : Elem} {st' : EvalSt}
    (h : st.builtInBlob = .ok (b, st')) : st'.bufLibs = st.bufLibs := by
  unfold EvalSt.builtInBlob at h
  split at h
  · cases h; rfl
  · split at h
    · cases h
    · split at h
      · cases h; rfl
      · cases h

theorem setRel_pres {env : Env} {blob : Elem} {st st' : EvalSt}
    (h : setReldirlibFromBlob env blob st = .ok st') :
    st'.bufLibs = st.bufLibs := by
  unfold setReldirlibFromBlob at h
  split at h
  · cases h; rfl
  · split at h
    · rcases hg : st.getLibs with ⟨libs, st1⟩
      rw [hg] at h
      dsimp only at h
      rcases libs with _ | ⟨l0, rest⟩
      · simp at h
      · dsimp only at h
        cases h
        show st1.bufLibs = st.bufLibs
        exact getLibs_pres hg
    · cases h; rfl

theorem parentSc_pres (sc : ScopeRef) (st : EvalSt) :
    ((parentScoperefFromScoperef sc st).2).bufLibs = st.bufLibs := by
  unfold parentScoperefFromScoperef
  split
  dsimp only
  repeat' split
  all_goals first
    | rfl
    | (rename_i hb; exact builtin_pres hb)

theorem partialInner_pres (env : Env) (tokens : List String) (i : Nat)
    (libs : List Lib) (ps : List (List String)) (st : EvalSt) :
    ((partialInner env tokens i libs ps st).2).bufLibs = st.bufLibs := by
  induction ps generalizing st with
  | nil => rfl
  | cons m rest ih =>
    unfold partialInner
    repeat' split
    all_goals first
      | rfl
      | (apply ih)
      | (rename_i hsr; exact setRel_pres hsr)

theorem partialOuter_pres (env : Env) (tokens : List String)
    (ps : List (List String)) (libs : List Lib) (il : List Nat) (st : EvalSt) :
    ((partialOuter env tokens ps libs il st).2).bufLibs = st.bufLibs := by
  induction il generalizing st with
  | nil => rfl
  | cons i rest ih =>
    unfold partialOuter
    repeat' split
    all_goals first
      | rfl
      | (rename_i h9; first
          | exact hop2 h9 (partialInner_pres _ _ _ _ _ _) rfl
          | exact bstep (ih _) (hop2 h9 (partialInner_pres _ _ _ _ _ _) rfl))

/-- Fuel-step preservation lemma for `hitFromCitdl`. -/
theorem presStep1 (n : Nat) (ih : PresAll n) :
    ∀ env expr sc v d st,
      ((hitFromCitdl (n + 1) env expr sc v d st).2).bufLibs = st.bufLibs := by
  obtain ⟨ih1, ih2, ih3, ih4, ih5, ih6, ih7, ih8, ih9, ih10, ih11, ih12, ih13, ih14, ih15, ih16, ih17, ih18⟩ := ih
  intro env expr sc v d st
  unfold hitFromCitdl
  try dsimp only
  repeat' split
  all_goals repeat'
    (first
      | with_reducible rfl
      | with_reducible (refine (check_pres (by assumption)).trans ?_)
      | with_reducible (refine hop2 (by assumption) (ih2 _ _ _ _ _ _ _) ?_))

/-- Fuel-step preservation lemma for `hitFromTokens`. -/
theorem presStep2 (n : Nat) (ih : PresAll n) :
    ∀ env tokens expr sc v d st,
      ((hitFromTokens (n + 1) env tokens expr sc v d st).2).bufLibs = st.bufLibs := by
  obtain ⟨ih1, ih2, ih3, ih4, ih5, ih6, ih7, ih8, ih9, ih10, ih11, ih12, ih13, ih14, ih15, ih16, ih17, ih18⟩ := ih
  intro env tokens expr sc v d st
  unfold hitFromTokens
  try dsimp only
  repeat' split
  all_goals repeat'
    (first
      | with_reducible rfl
      | with_reducible (refine hop2 (by assumption) (ih7 _ _ _ _ _ _) ?_)
      | with_reducible (refine hop2 (by assumption) (ih3 _ _ _ _ _ _) ?_)
      | with_reducible (refine hop2 (by assumption) (ih4 _ _ _ _) ?_))

/-- Fuel-step preservation lemma for `chainLoop`. -/
theorem presStep3 (n : Nat) (ih : PresAll n) :
    ∀ env rem hit asc d st,
      ((chainLoop (n + 1) env rem hit asc d st).2).bufLibs = st.bufLibs := by
  obtain ⟨ih1, ih2, ih3, ih4, ih5, ih6, ih7, ih8, ih9, ih10, ih11, ih12, ih13, ih14, ih15, ih16, ih17, ih18⟩ := ih
  intro env rem hit asc d st
  unfold chainLoop
  try dsimp only
  repeat' split
  all_goals repeat'
    (first
      | with_reducible rfl
      | with_reducible (refine hop2 (by assumption) (ih13 _ _ _ _ _ _ _) ?_)
      | with_reducible (refine hop2 (by assumption) (ih14 _ _ _ _ _ _) ?_)
      | with_reducible (refine bstep (ih3 _ _ _ _ _ _) ?_))

/-- Fuel-step preservation lemma for `varResolveLoop`. -/
theorem presStep4 (n : Nat) (ih : PresAll n) :
    ∀ env hit d st,
      ((varResolveLoop (n + 1) env hit d st).2).bufLibs = st.bufLibs := by
  obtain ⟨ih1, ih2, ih3, ih4, ih5, ih6, ih7, ih8, ih9, ih10, ih11, ih12, ih13, ih14, ih15, ih16, ih17, ih18⟩ := ih
  intro env hit d st
  unfold varResolveLoop
  try dsimp only
  repeat' split
  all_goals repeat'
    (first
      | with_reducible rfl
      | with_reducible (refine hop2 (by assumption) (ih17 _ _ _ _ _) ?_)
      | with_reducible (refine bstep (ih4 _ _ _ _) ?_))

/-- Fuel-step preservation lemma for `plainVarLoop`. -/
theorem presStep5 (n : Nat) (ih : PresAll n) :
    ∀ env hit d st,
      ((plainVarLoop (n + 1) env hit d st).2).bufLibs = st.bufLibs := by
  obtain ⟨ih1, ih2, ih3, ih4, ih5, ih6, ih7, ih8, ih9, ih10, ih11, ih12, ih13, ih14, ih15, ih16, ih17, ih18⟩ := ih
  intro env hit d st
  unfold plainVarLoop
  try dsimp only
  repeat' split
  all_goals repeat'
    (first
      | with_reducible rfl
      | with_reducible (refine hop2 (by assumption) (ih17 _ _ _ _ _) ?_)
      | with_reducible (refine bstep (ih5 _ _ _ _) ?_))

/-- Fuel-step preservation lemma for `hitFromRequire`. -/
theorem presStep6 (n : Nat) (ih : PresAll n) :
    ∀ env tokens v d st,
      ((hitFromRequire (n + 1) env tokens v d st).2).bufLibs = st.bufLibs := by
  obtain ⟨ih1, ih2, ih3, ih4, ih5, ih6, ih7, ih8, ih9, ih10, ih11, ih12, ih13, ih14, ih15, ih16, ih17, ih18⟩ := ih
  intro env tokens v d st
  unfold hitFromRequire
  try dsimp only
  repeat' split
  all_goals repeat'
    (first
      | with_reducible rfl
      | with_reducible (refine hop2 (by assumption) (ih9 _ _ _ _ _) ?_))

/-- Fuel-step preservation lemma for `hitFromFirstPart`. -/
theorem presStep7 (n : Nat) (ih : PresAll n) :
    ∀ env tokens sc v d st,
      ((hitFromFirstPart (n + 1) env tokens sc v d st).2).bufLibs = st.bufLibs := by
  obtain ⟨ih1, ih2, ih3, ih4, ih5, ih6, ih7, ih8, ih9, ih10, ih11, ih12, ih13, ih14, ih15, ih16, ih17, ih18⟩ := ih
  intro env tokens sc v d st
  unfold hitFromFirstPart
  try dsimp only
  repeat' split
  all_goals repeat'
    (first
      | with_reducible rfl
      | with_reducible (refine (builtin_pres (by assumption)).trans ?_)
      | with_reducible
          (refine hop2 (by assumption)
            (by split <;> first | exact ih6 _ _ _ _ _ | rfl) ?_)
      | with_reducible (refine bstep (ih8 _ _ _ _ _ _ _ _ _ _) ?_))

/-- Fuel-step preservation lemma for `firstPartLoop`. -/
theorem presStep8 (n : Nat) (ih : PresAll n) :
    ∀ env tokens ft elem sc c csc v d st,
      ((firstPartLoop (n + 1) env tokens ft elem sc c csc v d st).2).bufLibs =
        st.bufLibs := by
  obtain ⟨ih1, ih2, ih3, ih4, ih5, ih6, ih7, ih8, ih9, ih10, ih11, ih12, ih13, ih14, ih15, ih16, ih17, ih18⟩ := ih
  intro env tokens ft elem sc c csc v d st
  unfold firstPartLoop
  try dsimp only
  repeat' split
  all_goals repeat'
    (first
      | with_reducible rfl
      | with_reducible (refine hop2 (by assumption) (ih9 _ _ _ _ _) ?_)
      | with_reducible (refine hop2 (by assumption) (parentSc_pres _ _) ?_)
      | with_reducible (refine hop2 (by assumption) (ih18 _ _ _ _ _ _) ?_)
      | with_reducible (refine bstep (ih7 _ _ _ _ _ _) ?_)
      | with_reducible (refine bstep (ih8 _ _ _ _ _ _ _ _ _ _) ?_))

/-- Fuel-step preservation lemma for `hitFromElemImports`. -/
theorem presStep9 (n : Nat) (ih : PresAll n) :
    ∀ env tokens it d st,
      ((hitFromElemImports (n + 1) env tokens it d st).2).bufLibs = st.bufLibs := by
  obtain ⟨ih1, ih2, ih3, ih4, ih5, ih6, ih7, ih8, ih9, ih10, ih11, ih12, ih13, ih14, ih15, ih16, ih17, ih18⟩ := ih
  intro env tokens it d st
  unfold hitFromElemImports
  try dsimp only
  repeat' split
  all_goals repeat'
    (first
      | with_reducible rfl
      | with_reducible (refine (check_pres (by assumption)).trans ?_)
      | with_reducible (refine hop2 (by assumption) (getLibs_bufLibs _) ?_)
      | with_reducible (refine (getLibs_bufLibs _).trans ?_)
      | with_reducible (refine bstep (ih10 _ _ _ _ _ _ _ _ _ _) ?_))

/-- Fuel-step preservation lemma for `importsLoop`. -/
theorem presStep10 (n : Nat) (ih : PresAll n) :
    ∀ env tokens ft imps ol d ps la lm st,
      ((importsLoop (n + 1) env tokens ft imps ol d ps la lm st).2).bufLibs =
        st.bufLibs := by
  obtain ⟨ih1, ih2, ih3, ih4, ih5, ih6, ih7, ih8, ih9, ih10, ih11, ih12, ih13, ih14, ih15, ih16, ih17, ih18⟩ := ih
  intro env tokens ft imps ol d ps la lm st
  unfold importsLoop
  try dsimp only
  repeat' split
  all_goals repeat'
    (first
      | with_reducible rfl
      | with_reducible (refine bstep (partialOuter_pres _ _ _ _ _ _) ?_)
      | with_reducible (refine (setRel_pres (by assumption)).trans ?_)
      | with_reducible (refine hop2 (by assumption) (ih14 _ _ _ _ _ _) ?_)
      | with_reducible (refine bstep (ih11 _ _ _ _ _ _ _ _ _ _ _ _ _) ?_)
      | with_reducible (refine bstep (ih10 _ _ _ _ _ _ _ _ _ _) ?_))

/-- Fuel-step preservation lemma for `namedImportCase`. -/
theorem presStep11 (n : Nat) (ih : PresAll n) :
    ∀ env tokens ft more ol d ps la lm sy mo libs st,
      ((namedImportCase (n + 1) env tokens ft more ol d ps la lm sy mo libs
        st).2).bufLibs = st.bufLibs := by
  obtain ⟨ih1, ih2, ih3, ih4, ih5, ih6, ih7, ih8, ih9, ih10, ih11, ih12, ih13, ih14, ih15, ih16, ih17, ih18⟩ := ih
  intro env tokens ft more ol d ps la lm sy mo libs st
  unfold namedImportCase
  try dsimp only
  repeat' split
  all_goals repeat'
    (first
      | with_reducible rfl
      | with_reducible (refine (setRel_pres (by assumption)).trans ?_)
      | with_reducible (refine hop2 (by assumption) (ih12 _ _ _ _ _ _) ?_)
      | with_reducible (refine hop2 (by assumption) (ih4 _ _ _ _) ?_)
      | with_reducible (refine hop2 (by assumption) (ih9 _ _ _ _ _) ?_)
      | with_reducible (refine bstep (ih10 _ _ _ _ _ _ _ _ _ _) ?_))

/-- Fuel-step preservation lemma for `exportsLoop`. -/
theorem presStep12 (n : Nat) (ih : PresAll n) :
    ∀ env sn ex sc d st,
      ((exportsLoop (n + 1) env sn ex sc d st).2).bufLibs = st.bufLibs := by
  obtain ⟨ih1, ih2, ih3, ih4, ih5, ih6, ih7, ih8, ih9, ih10, ih11, ih12, ih13, ih14, ih15, ih16, ih17, ih18⟩ := ih
  intro env sn ex sc d st
  unfold exportsLoop
  try dsimp only
  repeat' split
  all_goals repeat'
    (first
      | with_reducible rfl
      | with_reducible (refine hop2 (by assumption) (ih5 _ _ _ _) ?_)
      | with_reducible (refine bstep (ih12 _ _ _ _ _ _) ?_))

/-- Fuel-step preservation lemma for `hitFromCall`. -/
theorem presStep13 (n : Nat) (ih : PresAll n) :
    ∀ env elem sc args asc d st,
      ((hitFromCall (n + 1) env elem sc args asc d st).2).bufLibs = st.bufLibs := by
  obtain ⟨ih1, ih2, ih3, ih4, ih5, ih6, ih7, ih8, ih9, ih10, ih11, ih12, ih13, ih14, ih15, ih16, ih17, ih18⟩ := ih
  intro env elem sc args asc d st
  unfold hitFromCall
  try dsimp only
  repeat' split
  all_goals repeat'
    (first
      | with_reducible rfl
      | with_reducible (refine hop2 (by assumption) (ih5 _ _ _ _) ?_)
      | with_reducible (refine bstep (ih1 _ _ _ _ _ _) ?_))

/-- Fuel-step preservation lemma for `hitFromGetattr`. -/
theorem presStep14 (n : Nat) (ih : PresAll n) :
    ∀ env tokens elem sc d st,
      ((hitFromGetattr (n + 1) env tokens elem sc d st).2).bufLibs = st.bufLibs := by
  obtain ⟨ih1, ih2, ih3, ih4, ih5, ih6, ih7, ih8, ih9, ih10, ih11, ih12, ih13, ih14, ih15, ih16, ih17, ih18⟩ := ih
  intro env tokens elem sc d st
  unfold hitFromGetattr
  try dsimp only
  repeat' split
  all_goals repeat'
    (first
      | with_reducible rfl
      | with_reducible (refine (check_pres (by assumption)).trans ?_)
      | with_reducible (refine bstep (ih2 _ _ _ _ _ _ _) ?_)
      | with_reducible (refine bstep (ih16 _ _ _ _ _ _) ?_)
      | with_reducible (refine hop2 (by assumption) (ih9 _ _ _ _ _) ?_)
      | with_reducible (refine hop2 (by assumption) (ih15 _ _ _ _ _ _) ?_))

/-- Fuel-step preservation lemma for `getattrRefsLoop`. -/
theorem presStep15 (n : Nat) (ih : PresAll n) :
    ∀ env tokens refs sc d st,
      ((getattrRefsLoop (n + 1) env tokens refs sc d st).2).bufLibs = st.bufLibs := by
  obtain ⟨ih1, ih2, ih3, ih4, ih5, ih6, ih7, ih8, ih9, ih10, ih11, ih12, ih13, ih14, ih15, ih16, ih17, ih18⟩ := ih
  intro env tokens refs sc d st
  unfold getattrRefsLoop
  try dsimp only
  repeat' split
  all_goals repeat'
    (first
      | with_reducible rfl
      | with_reducible (refine hop2 (by assumption) (ih18 _ _ _ _ _ _) ?_)
      | with_reducible (refine hop2 (by assumption) (ih14 _ _ _ _ _ _) ?_)
      | with_reducible (refine bstep (ih15 _ _ _ _ _ _) ?_))

/-- Fuel-step preservation lemma for `getattrBottom`. -/
theorem presStep16 (n : Nat) (ih : PresAll n) :
    ∀ env tokens elem sc d st,
      ((getattrBottom (n + 1) env tokens elem sc d st).2).bufLibs = st.bufLibs := by
  obtain ⟨ih1, ih2, ih3, ih4, ih5, ih6, ih7, ih8, ih9, ih10, ih11, ih12, ih13, ih14, ih15, ih16, ih17, ih18⟩ := ih
  intro env tokens elem sc d st
  unfold getattrBottom
  try dsimp only
  repeat' split
  all_goals repeat'
    (first
      | with_reducible rfl
      | with_reducible (refine hop2 (by assumption) (ih18 _ _ _ _ _ _) ?_)
      | with_reducible (refine bstep (ih14 _ _ _ _ _ _) ?_))

/-- Fuel-step preservation lemma for `hitFromVariableTypeInference`. -/
theorem presStep17 (n : Nat) (ih : PresAll n) :
    ∀ env elem sc d st,
      ((hitFromVariableTypeInference (n + 1) env elem sc d st).2).bufLibs =
        st.bufLibs := by
  obtain ⟨ih1, ih2, ih3, ih4, ih5, ih6, ih7, ih8, ih9, ih10, ih11, ih12, ih13, ih14, ih15, ih16, ih17, ih18⟩ := ih
  intro env elem sc d st
  unfold hitFromVariableTypeInference
  try dsimp only
  repeat' split
  all_goals repeat'
    (first
      | with_reducible rfl
      | with_reducible (refine bstep (ih1 _ _ _ _ _ _) ?_))

/-- Fuel-step preservation lemma for `hitFromTypeInference`. -/
theorem presStep18 (n : Nat) (ih : PresAll n) :
    ∀ env citdl sc v d st,
      ((hitFromTypeInference (n + 1) env citdl sc v d st).2).bufLibs = st.bufLibs := by
  obtain ⟨ih1, ih2, ih3, ih4, ih5, ih6, ih7, ih8, ih9, ih10, ih11, ih12, ih13, ih14, ih15, ih16, ih17, ih18⟩ := ih
  intro env citdl sc v d st
  unfold hitFromTypeInference
  try dsimp only
  all_goals repeat'
    (first
      | with_reducible rfl
      | with_reducible (refine bstep (ih1 _ _ _ _ _ _) ?_))

/-- The evaluator never reassigns the shared `self.buf.libs`: every state
a resolver step leaves behind carries the buffer library list it was
given (all mutation goes to the evaluator-own `self._libs` shadow copy,
the built-in-blob memo, and the sentinel counters). -/
theorem resolverBufLibs : ∀ fuel : Nat, PresAll fuel := by
  intro fuel
  induction fuel with
  | zero =>
    refine ⟨?_, ?_, ?_, ?_, ?_, ?_, ?_, ?_, ?_, ?_, ?_, ?_, ?_, ?_, ?_, ?_,
      ?_, ?_⟩ <;> (intros; rfl)
  | succ n ih =>
    exact ⟨presStep1 n ih, presStep2 n ih, presStep3 n ih, presStep4 n ih, presStep5 n ih, presStep6 n ih, presStep7 n ih, presStep8 n ih, presStep9 n ih, presStep10 n ih, presStep11 n ih, presStep12 n ih, presStep13 n ih, presStep14 n ih, presStep15 n ih, presStep16 n ih, presStep17 n ih, presStep18 n ih⟩


/-! ## Lemmas about the cycle sentinel on the two-step cycle -/

/-- One-step unfolding of `hitFromCitdl` at successor fuel. -/
theorem hitFromCitdl_succ (fuel : Nat) (env : Env) (expr : String)
    (sc : ScopeRef) (v : Option Elem) (d : Bool) (st : EvalSt) :
    hitFromCitdl (fuel+1) env expr sc v d st =
      match checkInfiniteRecursion expr st with
      | .error e => (.error e, st)
      | .ok st =>
        match hitFromTokens fuel env (tokenizeCitdlExpr expr) expr sc v d st with
        | (.ok (hit, _), st) => (.ok hit, st)
        | (.error e, st) => (.error e, st) := rfl

/-- Below the sentinel, evaluating `A` bumps its counter. -/
theorem checkA (a b : Nat) (ha : a + 1 < 100) :
    checkInfiniteRecursion "A" (stA a b) = .ok (stA (a+1) b) := by
  simp [checkInfiniteRecursion, stA, EvalSt.bumpCount, SENTINEL_MAX_EXPR_COUNT]
  omega

/-- Below the sentinel, evaluating `B` bumps its counter. -/
theorem checkB (a b : Nat) (hb : b + 1 < 100) :
    checkInfiniteRecursion "B" (stA a b) = .ok (stA a (b+1)) := by
  simp [checkInfiniteRecursion, stA, EvalSt.bumpCount, SENTINEL_MAX_EXPR_COUNT]
  omega

/-- On the two-step cycle, one resolution round on `A` costs four fuel
levels and hands over to `B` with `A`'s counter bumped. -/
theorem stepA (fuel a b : Nat) (ha : a + 1 < 100) (e : Err) (st' : EvalSt)
    (h : hitFromCitdl (fuel+1) envA "B" (blob2,[]) (some cycA) false (stA (a+1) b) =
      (.error e, st')) :
    hitFromCitdl (fuel+5) envA "A" (blob2,[]) (some cycB) false (stA a b) =
      (.error e, st') := by
  rw [show fuel+5 = (fuel+4)+1 from rfl, hitFromCitdl_succ, checkA a b ha]
  dsimp only
  have h1 : hitFromTokens (fuel+4) envA (tokenizeCitdlExpr "A") "A" (blob2,[])
      (some cycB) false (stA (a+1) b) =
      match varResolveLoop (fuel+3) envA (cycA,(blob2,[])) false (stA (a+1) b) with
      | (.error e, st) => (.error e, st)
      | (.ok hit, st) => (.ok (hit, 1), st) := rfl
  have h2 : varResolveLoop (fuel+3) envA (cycA,(blob2,[])) false (stA (a+1) b) =
      match hitFromCitdl (fuel+1) envA "B" (blob2,[]) (some cycA) false (stA (a+1) b) with
      | (.error e, st) => (.error e, st)
      | (.ok hit, st) => varResolveLoop (fuel+2) envA hit false st := rfl
  rw [h1, h2, h]

/-- The matching round on `B`. -/
theorem stepB (fuel a b : Nat) (hb : b + 1 < 100) (e : Err) (st' : EvalSt)
    (h : hitFromCitdl (fuel+1) envA "A" (blob2,[]) (some cycB) false (stA a (b+1)) =
      (.error e, st')) :
    hitFromCitdl (fuel+5) envA "B" (blob2,[]) (some cycA) false (stA a b) =
      (.error e, st') := by
  rw [show fuel+5 = (fuel+4)+1 from rfl, hitFromCitdl_succ, checkB a b hb]
  dsimp only
  have h1 : hitFromTokens (fuel+4) envA (tokenizeCitdlExpr "B") "B" (blob2,[])
      (some cycA) false (stA a (b+1)) =
      match varResolveLoop (fuel+3) envA (cycB,(blob2,[])) false (stA a (b+1)) with
      | (.error e, st) => (.error e, st)
      | (.ok hit, st) => (.ok (hit, 1), st) := rfl
  have h2 : varResolveLoop (fuel+3) envA (cycB,(blob2,[])) false (stA a (b+1)) =
      match hitFromCitdl (fuel+1) envA "A" (blob2,[]) (some cycB) false (stA a (b+1)) with
      | (.error e, st) => (.error e, st)
      | (.ok hit, st) => varResolveLoop (fuel+2) envA hit false st := rfl
  rw [h1, h2, h]

/-- At counter 99, the next evaluation of `A` trips the sentinel. -/
theorem trip99 (fuel : Nat) :
    hitFromCitdl (fuel+1) envA "A" (blob2,[]) (some cycB) false (stA 99 99) =
      (.error (.cycle "hit eval sentinel: expr 'A' eval count is 100 (abort)"),
        stA 99 99) := rfl

/-- `m` full rounds of the two-step cycle starting `99 - m` counts below
the sentinel end in the sentinel error. -/
theorem cyc2run : ∀ m, m ≤ 99 → ∀ j,
    hitFromCitdl (8*m + 1 + j) envA "A" (blob2,[]) (some cycB) false
      (stA (99-m) (99-m)) =
      (.error (.cycle "hit eval sentinel: expr 'A' eval count is 100 (abort)"),
        stA 99 99) := by
  intro m
  induction m with
  | zero =>
    intro _ j
    rw [show 8*0+1+j = j+1 by omega]
    exact trip99 j
  | succ n ih =>
    intro hm j
    rw [show 8*(n+1)+1+j = (8*n+4+j)+5 by omega,
        show (99 - (n+1)) = 98 - n by omega]
    apply stepA _ _ _ (by omega)
    rw [show (8*n+4+j)+1 = (8*n+j)+5 by omega,
        show (98-n)+1 = 99 - n by omega]
    apply stepB _ _ _ (by omega)
    rw [show (8*n+j)+1 = 8*n+1+j by omega, show (98-n)+1 = 99-n by omega]
    exact ih (by omega) j

/-- The very first round on `A`, from a fresh evaluator. -/
theorem step0A (fuel : Nat) (e : Err) (st' : EvalSt)
    (h : hitFromCitdl (fuel+1) envA "B" (blob2,[]) (some cycA) false
      ⟨libsD,none,none,[("A",1)]⟩ = (.error e, st')) :
    hitFromCitdl (fuel+5) envA "A" (blob2,[]) none false (EvalSt.init libsD) =
      (.error e, st') := by
  have h1 : hitFromTokens (fuel+4) envA (tokenizeCitdlExpr "A") "A" (blob2,[])
      none false (⟨libsD,none,none,[("A",1)]⟩ : EvalSt) =
      match varResolveLoop (fuel+3) envA (cycA,(blob2,[])) false
          (⟨libsD,none,none,[("A",1)]⟩ : EvalSt) with
      | (.error e, st) => (.error e, st)
      | (.ok hit, st) => (.ok (hit, 1), st) := rfl
  have h2 : varResolveLoop (fuel+3) envA (cycA,(blob2,[])) false
      (⟨libsD,none,none,[("A",1)]⟩ : EvalSt) =
      match hitFromCitdl (fuel+1) envA "B" (blob2,[]) (some cycA) false
          (⟨libsD,none,none,[("A",1)]⟩ : EvalSt) with
      | (.error e, st) => (.error e, st)
      | (.ok hit, st) => varResolveLoop (fuel+2) envA hit false st := rfl
  rw [show fuel+5 = (fuel+4)+1 from rfl, hitFromCitdl_succ]
  rw [show checkInfiniteRecursion "A" (EvalSt.init libsD) =
    .ok (⟨libsD,none,none,[("A",1)]⟩ : EvalSt) from rfl]
  dsimp only
  rw [h1, h2, h]

/-- The very first round on `B`. -/
theorem step0B (fuel : Nat) (e : Err) (st' : EvalSt)
    (h : hitFromCitdl (fuel+1) envA "A" (blob2,[]) (some cycB) false
      (stA 1 1) = (.error e, st')) :
    hitFromCitdl (fuel+5) envA "B" (blob2,[]) (some cycA) false
      ⟨libsD,none,none,[("A",1)]⟩ = (.error e, st') := by
  have h1 : hitFromTokens (fuel+4) envA (tokenizeCitdlExpr "B") "B" (blob2,[])
      (some cycA) false (stA 1 1) =
      match varResolveLoop (fuel+3) envA (cycB,(blob2,[])) false (stA 1 1) with
      | (.error e, st) => (.error e, st)
      | (.ok hit, st) => (.ok (hit, 1), st) := rfl
  have h2 : varResolveLoop (fuel+3) envA (cycB,(blob2,[])) false (stA 1 1) =
      match hitFromCitdl (fuel+1) envA "A" (blob2,[]) (some cycB) false
          (stA 1 1) with
      | (.error e, st) => (.error e, st)
      | (.ok hit, st) => varResolveLoop (fuel+2) envA hit false st := rfl
  rw [show fuel+5 = (fuel+4)+1 from rfl, hitFromCitdl_succ]
  rw [show checkInfiniteRecursion "B" (⟨libsD,none,none,[("A",1)]⟩ : EvalSt) =
    .ok (stA 1 1) from rfl]
  dsimp only
  rw [h1, h2, h]

/-- Resolving `A` of the two-step cycle from a fresh evaluator ends in
the sentinel's `CycleDetected` error (at any fuel ≥ 793). -/
theorem cyc2main (j : Nat) :
    hitFromCitdl (793+j) envA "A" (blob2,[]) none false (EvalSt.init libsD) =
      (.error (.cycle "hit eval sentinel: expr 'A' eval count is 100 (abort)"),
        stA 99 99) := by
  rw [show 793+j = (788+j)+5 by omega]
  apply step0A
  rw [show (788+j)+1 = (784+j)+5 by omega]
  apply step0B
  rw [show (784+j)+1 = 8*98+1+j by omega]
  have := cyc2run 98 (by omega) j
  rw [show (99-98 : Nat) = 1 from rfl] at this
  exact this

/-! ## Helper lemmas for the claim theorems -/

/-- `cix_function`'s fold never changes the `max_count` component, so the
selection is "last entry with positive count". -/
theorem cix_foldl_char (l : List (String × Nat)) : ∀ acc : Option String,
    (l.foldl (fun acc p => if p.2 > acc.2 then (some p.1, acc.2) else acc)
      (acc, 0)).1 =
      l.foldl (fun a p => if p.2 > 0 then some p.1 else a) acc := by
  induction l with
  | nil => intro acc; rfl
  | cons p l ih =>
    intro acc
    simp only [List.foldl_cons]
    by_cases hp : p.2 > 0
    · rw [if_pos hp, if_pos hp]; exact ih _
    · rw [if_neg hp, if_neg hp]; exact ih _

/-- Every token `tokLoop` emits is nonempty: a flushed call-token ends in
`)`, and a bare word is emitted only under a `word != ""` guard. -/
theorem tokLoop_ne_nil : ∀ (ms : List (String × String)) (level : Int)
    (params t : String), t ∈ tokLoop ms level params → t ≠ "" := by
  intro ms
  induction ms with
  | nil => intro level params t ht; simp [tokLoop] at ht
  | cons m rest ih =>
    intro level params t ht
    obtain ⟨sep, word⟩ := m
    simp only [tokLoop] at ht
    split at ht
    · exact ih _ _ _ ht
    · split at ht
      · split at ht
        · rcases List.mem_cons.1 ht with h1 | h2
          · intro he
            rw [he] at h1
            have h9 := congrArg String.length h1
            rw [String.length_append] at h9
            rw [show ("" : String).length = 0 from rfl,
                show (")" : String).length = 1 from rfl] at h9
            omega
          · rcases List.mem_append.1 h2 with h3 | h4
            · split at h3
              · rcases List.mem_singleton.1 h3 with h5
                rw [h5]; assumption
              · simp at h3
            · exact ih _ _ _ h4
        · exact ih _ _ _ ht
      · split at ht
        · rcases List.mem_append.1 ht with h3 | h4
          · split at h3
            · rcases List.mem_singleton.1 h3 with h5
              rw [h5]; assumption
            · simp at h3
          · exact ih _ _ _ h4
        · exact ih _ _ _ ht

/-- `find?` ignores a filter that only removes `ilk` entries when the
wanted key is not `ilk`. -/
theorem find?_filter_ilk (n : String) (h : n ≠ "ilk") :
    ∀ l : List (String × String),
      (l.filter (fun p => p.1 ≠ "ilk")).find? (fun p => p.1 = n) =
        l.find? (fun p => p.1 = n) := by
  intro l
  induction l with
  | nil => rfl
  | cons a l ih =>
    by_cases hilk : a.1 = "ilk"
    · rw [List.filter_cons_of_neg (by simp [hilk]),
        List.find?_cons_of_neg _ (by simp [hilk, Ne.symm h]), ih]
    · rw [List.filter_cons_of_pos (by simp [hilk])]
      by_cases ha : a.1 = n
      · rw [List.find?_cons_of_pos _ (by simp [ha]),
          List.find?_cons_of_pos _ (by simp [ha])]
      · rw [List.find?_cons_of_neg _ (by simp [ha]),
          List.find?_cons_of_neg _ (by simp [ha]), ih]

/-- `elem.get` on a `ClassInstance` agrees with the wrapped element for
every attribute other than `ilk`. -/
theorem classInstance_get (e : Elem) (n : String) (h : n ≠ "ilk") :
    (classInstance e).get n = e.get n := by
  show ((( ("ilk", "instance") :: e.attrs.filter (fun p => p.1 ≠ "ilk")).find?
    (fun p => p.1 = n)).map Prod.snd) = _
  rw [List.find?_cons_of_neg _ (by simp [Ne.symm h]), find?_filter_ilk n h]
  rfl

/-- The `ClassInstance` wrapper answers `"instance"` for `ilk`. -/
theorem classInstance_ilk (e : Elem) :
    (classInstance e).get "ilk" = some "instance" := rfl

/-- The `ClassInstance` wrapper keeps the wrapped element's children. -/
theorem classInstance_children (e : Elem) :
    (classInstance e).children = e.children := rfl

/-- Member projection through a `ClassInstance` is member projection of
the wrapped class under the instance-view hidden filter. -/
theorem membersFromHit_classInstance (fuel : Nat) (env : Env) (e : Elem)
    (sc : ScopeRef) (d : Bool) (st : EvalSt) (h : e.get "ilk" = some "class") :
    membersFromHit (fuel+1) env (classInstance e, sc) d none st =
      membersFromHit (fuel+1) env (e, sc) d
        (some ["__hidden__", "__staticmethod__", "__ctor__"]) st := by
  have h3 : (classInstance e).getD "classrefs" "" = e.getD "classrefs" "" := by
    unfold Elem.getD
    rw [classInstance_get e _ (by decide)]
  have h4 : (classInstance e).get "citdl" = e.get "citdl" :=
    classInstance_get e _ (by decide)
  unfold membersFromHit
  simp [h, h3, h4, classInstance_ilk, classInstance_children]

/-! ## The claim theorems -/

/-- C1: contrary to the claim, `cix_function` does not pick the
highest-count entry of the returns histogram: its `max_count` is
initialised to 0 and never updated inside the loop, so every entry with a
positive count overwrites `best_citdl` and the *last* positive-count
entry wins.  On the histogram `[("Number", 5), ("String", 1)]` the code
emits `"String"` while the highest-count entry is `"Number"`; in general
the code computes "last entry with positive count". -/
theorem C1_best_return_is_last_positive_not_max :
    cix_function_best_citdl [("Number", 5), ("String", 1)] = some "String" ∧
    spec_best_return_citdl [("Number", 5), ("String", 1)] = some "Number" ∧
    ("String" != "Number") = true ∧
    (∀ h : List (String × Nat),
      cix_function_best_citdl h =
        h.foldl (fun a p => if p.2 > 0 then some p.1 else a) none) := by
  refine ⟨rfl, rfl, rfl, fun h => cix_foldl_char h none⟩

/-- C2 counterexample: under a declaration-only request, the terminal
Variable `x` — which carries no `__no_defn__` flag — is returned as-is,
still a Variable, not resolved onward as the claim states. -/
theorem C2_counterexample :
    ((hitFromCitdl 60 envA "x" (blobD, []) none true (EvalSt.init libsD)).1 =
      .ok (varX, (blobD, []))) ∧
    varX.tag = "variable" ∧
    (pySplitWs (varX.getD "attributes" "")).contains "__no_defn__" = false :=
  ⟨rfl, rfl, rfl⟩

/-- C2: corrected.  The terminal variable loop of `_hit_from_tokens` runs
`while elem.tag == "variable" and (not defn_only or "__no_defn__" in
attributes)`: under a declaration-only request only a variable flagged
`__no_defn__` is resolved onward (`y` resolves to the `Number` class),
and under a plain request every variable is (`x` resolves too); an
unflagged variable under a declaration-only request is returned as-is. -/
theorem C2_terminal_variable_resolution :
    ((hitFromCitdl 60 envA "y" (blobD, []) none true (EvalSt.init libsD)).1 =
      .ok (numberClass, (blobD, []))) ∧
    ((hitFromCitdl 60 envA "x" (blobD, []) none false (EvalSt.init libsD)).1 =
      .ok (numberClass, (blobD, []))) ∧
    (∀ fuel env hit st, hit.1.tag = "variable" →
      "__no_defn__" ∉ pySplitWs (hit.1.getD "attributes" "") →
      varResolveLoop (fuel + 1) env hit true st = (.ok hit, st)) := by
  refine ⟨rfl, rfl, fun fuel env hit st h1 h2 => ?_⟩
  unfold varResolveLoop
  try dsimp only
  split
  · rename_i hcond
    exact absurd (hcond.2.resolve_left (by simp)) h2
  · rfl

/-- C2 witness: the unflagged variable `x` is returned as-is by the
declaration-only terminal loop. -/
theorem C2_terminal_variable_resolution_witness :
    varResolveLoop 5 envA (varX, (blobD, [])) true (EvalSt.init libsD) =
      (.ok (varX, (blobD, [])), EvalSt.init libsD) :=
  C2_terminal_variable_resolution.2.2 4 envA (varX, (blobD, []))
    (EvalSt.init libsD) rfl (by decide)

/-- C3 counterexample: a *directly* self-referential variable (`A` with
citdl `A`) does not end in `CycleDetected`: the `item is not variable`
guard blocks the self-lookup and resolution fails with the recoverable
"could not resolve first part" `CodeIntelError`. -/
theorem C3_counterexample :
    varA3.tag = "variable" ∧
    varA3.get "citdl" = some "A" ∧ varA3.get "name" = some "A" ∧
    ((hitFromCitdl 60 envA "A" (blobE1, []) none false (EvalSt.init libsD)).1 =
      .error (.codeIntel "could not resolve first part of 'A'")) ∧
    isCycleResult (hitFromCitdl 60 envA "A" (blobE1, []) none false
        (EvalSt.init libsD)).1 = false :=
  ⟨rfl, rfl, rfl, rfl, rfl⟩

/-- C3: corrected.  A cyclic citdl chain through at least one
intermediate variable does terminate in the `CycleDetected` sentinel
error: on the two-step cycle `A → B → A`, resolution from a fresh
evaluator trips the eval-count sentinel at 100 and aborts with the
`cycle` error (at any fuel ≥ 793, so the run does not merely exhaust
fuel); the direct self-cycle instead errors recoverably (see the
counterexample). -/
theorem C3_cycle_detection :
    ∀ j, hitFromCitdl (793 + j) envA "A" (blob2, []) none false
        (EvalSt.init libsD) =
      (.error (.cycle "hit eval sentinel: expr 'A' eval count is 100 (abort)"),
        stA 99 99) :=
  cyc2main

/-- C4 counterexample: an `object`-ilk Scope callee is *not* turned into
an instance view — it falls through to the function branch of
`_hit_from_call` and raises "no return type info". -/
theorem C4_counterexample :
    objScope.get "ilk" = some "object" ∧
    ((hitFromCall 20 envA objScope (blobD, []) "()" (blobD, []) false
        (EvalSt.init libsD)).1 = .error (.codeIntel "no return type info")) :=
  ⟨rfl, rfl⟩

/-- C4: corrected.  Only a `class`-ilk callee yields the instance view:
the call returns the `ClassInstance` wrapper — the same element (same
children, same attributes other than `ilk`) answering `"instance"` for
`ilk` — and member projection through it is member projection of the
wrapped class under the instance hidden filter
`["__hidden__", "__staticmethod__", "__ctor__"]` (statics and ctors
hidden, instance variables shown), as the concrete class `K` with one
member of each kind shows. -/
theorem C4_call_yields_instance_view :
    (∀ fuel env elem sc args asc d st, ¬ elem.tag = "variable" →
      elem.get "ilk" = some "class" →
      hitFromCall (fuel + 2) env elem sc args asc d st =
        (.ok (classInstance elem, sc), st)) ∧
    (∀ e, (classInstance e).children = e.children ∧
      (classInstance e).get "ilk" = some "instance" ∧
      ∀ n, n ≠ "ilk" → (classInstance e).get n = e.get n) ∧
    (∀ fuel env e sc d st, e.get "ilk" = some "class" →
      membersFromHit (fuel + 1) env (classInstance e, sc) d none st =
        membersFromHit (fuel + 1) env (e, sc) d
          (some ["__hidden__", "__staticmethod__", "__ctor__"]) st) ∧
    ((membersFromHit 20 envA (classInstance klass, (blobD, [])) false none
        (EvalSt.init libsD)).1 =
      .ok {("variable", some "iv"), ("function", some "m")}) ∧
    ((membersFromHit 20 envA (klass, (blobD, [])) false none
        (EvalSt.init libsD)).1 =
      .ok {("function", some "ctor"), ("function", some "s"),
           ("function", some "m")}) := by
  refine ⟨fun fuel env elem sc args asc d st h1 h2 => ?_,
    fun e => ⟨classInstance_children e, classInstance_ilk e,
      fun n hn => classInstance_get e n hn⟩,
    fun fuel env e sc d st h => membersFromHit_classInstance fuel env e sc d st h,
    by decide, by decide⟩
  have hp : plainVarLoop (fuel+1) env (elem, sc) d st = (.ok (elem, sc), st) := by
    unfold plainVarLoop
    try dsimp only
    rw [if_neg h1]
  rw [show fuel+2 = (fuel+1)+1 from rfl]
  unfold hitFromCall
  try dsimp only
  rw [hp]
  try dsimp only
  rw [if_pos h2]

/-- C4 witness: the class branch and the hidden-filter equivalence at the
concrete class `K`. -/
theorem C4_call_yields_instance_view_witness :
    (hitFromCall 10 envA klass (blobD, []) "()" (blobD, []) false
        (EvalSt.init libsD) =
      (.ok (classInstance klass, (blobD, [])), EvalSt.init libsD)) ∧
    (membersFromHit 20 envA (classInstance klass, (blobD, [])) false none
        (EvalSt.init libsD) =
      membersFromHit 20 envA (klass, (blobD, [])) false
        (some ["__hidden__", "__staticmethod__", "__ctor__"])
        (EvalSt.init libsD)) ∧
    (classInstance klass).get "name" = klass.get "name" :=
  ⟨C4_call_yields_instance_view.1 8 envA klass (blobD, []) "()" (blobD, [])
      false (EvalSt.init libsD) (by decide) rfl,
   C4_call_yields_instance_view.2.2.1 19 envA klass (blobD, []) false
      (EvalSt.init libsD) rfl,
   (C4_call_yields_instance_view.2.1 klass).2.2 "name" (by decide)⟩

/-- C5: confirmed.  A non-variable `function`-ilk callee whose recorded
return type is the placeholder `__arg1`, called with the literal
call-token `(42)`, resolves exactly as the literal expression `42`
rooted at the *caller's* scope (`argsScoperef`), with one fuel level
spent on the callee's variable loop and one on the call dispatch; the
end-to-end scenario `f(42)` versus `42` lands on the same Hit. -/
theorem C5_arg_placeholder_substitution :
    (∀ fuel env elem sc asc d st, ¬ elem.tag = "variable" →
      elem.get "ilk" = some "function" →
      elem.get "returns" = some "__arg1" →
      hitFromCall (fuel + 2) env elem sc "(42)" asc d st =
        hitFromCitdl (fuel + 1) env "42" asc none d st) ∧
    ((hitFromCitdl 60 envA "f(42)" (blobB, []) none false
        (EvalSt.init libsD)).1 = .ok (lit42, (blobB, []))) ∧
    ((hitFromCitdl 60 envA "42" (blobB, []) none false
        (EvalSt.init libsD)).1 = .ok (lit42, (blobB, []))) := by
  refine ⟨fun fuel env elem sc asc d st h1 h2 h3 => ?_, rfl, rfl⟩
  have hp : plainVarLoop (fuel+1) env (elem, sc) d st = (.ok (elem, sc), st) := by
    unfold plainVarLoop
    try dsimp only
    rw [if_neg h1]
  rw [show fuel+2 = (fuel+1)+1 from rfl]
  unfold hitFromCall
  try dsimp only
  rw [hp]
  try dsimp only
  rw [h2, h3]
  rfl

/-- C5 witness: the placeholder substitution at the concrete function
`f` returning `__arg1`. -/
theorem C5_arg_placeholder_substitution_witness :
    hitFromCall 60 envA fnArg (blobB, []) "(42)" (blobB, []) false
        (EvalSt.init libsD) =
      hitFromCitdl 59 envA "42" (blobB, []) none false (EvalSt.init libsD) :=
  C5_arg_placeholder_substitution.1 58 envA fnArg (blobB, []) (blobB, []) false
    (EvalSt.init libsD) (by decide) rfl rfl

/-- C6: confirmed.  A named/aliased import matched by the first token
loads the module blob and runs the export lookup: a present exported
name wins directly; a missing `default` request falls back to the
exports object (here the module object) itself; and the end-to-end
scenario `Bar.bar` through the aliased default import of module `bar`
lands on `bar`'s exported variable, with its declaring blob (source
`/proj/bar.js`), declaration line 3 and citdl `Number`. -/
theorem C6_named_import_resolution :
    ((hitFromCitdl 60 envA "Bar.bar" (fooBlob, []) none true
        (EvalSt.init libsA)).1 = .ok (varBar, (barBlob, []))) ∧
    impBar.get "alias" = some "Bar" ∧
    varBar.get "citdl" = some "Number" ∧
    barBlob.get "src" = some "/proj/bar.js" ∧
    varBar.get "line" = some "3" ∧
    (∀ fuel env sn ex sc d st el, ex.namesGet sn = some el →
      exportsLoop (fuel + 1) env sn ex sc d st =
        (.ok (some el, (sc.1, sc.2 ++ [ex.getD "name" ""])), st)) ∧
    (∀ fuel env ex sc d st, ex.namesGet "default" = none →
      exportsLoop (fuel + 1) env "default" ex sc d st =
        (.ok (some ex, sc), st)) := by
  refine ⟨rfl, rfl, rfl, rfl, rfl,
    fun fuel env sn ex sc d st el h => ?_, fun fuel env ex sc d st h => ?_⟩
  · unfold exportsLoop
    try dsimp only
    rw [h]
    try rfl
  · unfold exportsLoop
    try dsimp only
    rw [h]
    try rfl

/-- C6 witness: the direct export hit at `x` in blob `d`, and the
default-request fallback to the module object at blob `bar`. -/
theorem C6_named_import_resolution_witness :
    (exportsLoop 5 envA "x" blobD (blobD, []) false (EvalSt.init libsD) =
      (.ok (some varX, (blobD, ["d"])), EvalSt.init libsD)) ∧
    (exportsLoop 5 envA "default" barBlob (barBlob, []) false
        (EvalSt.init libsD) =
      (.ok (some barBlob, (barBlob, [])), EvalSt.init libsD)) :=
  ⟨C6_named_import_resolution.2.2.2.2.2.1 4 envA "x" blobD (blobD, []) false
      (EvalSt.init libsD) varX rfl,
   C6_named_import_resolution.2.2.2.2.2.2 4 envA barBlob (barBlob, []) false
      (EvalSt.init libsD) rfl⟩

/-- C7: confirmed.  The parent operation drops the last path segment;
when the element at the shortened path is a class or instance it drops
one more; at the blob root it answers the built-in fallback blob (for a
blob other than the built-in blob itself), which is loaded from the
lowest-priority library (`stdlib`, the last of `buf.libs`) once and
memoised; the built-in blob's own parent is `None`. -/
theorem C7_parent_scoperef_cases :
    (∀ blob lpath st elem, lpath.dropLast ≠ [] →
      elemFromScoperef blob lpath.dropLast = .ok elem →
      ¬(elem.get "ilk" = some "class" ∨ elem.get "ilk" = some "instance") →
      lpath ≠ [] →
      parentScoperefFromScoperef (blob, lpath) st =
        (.ok (some (blob, lpath.dropLast)), st)) ∧
    (∀ blob lpath st elem, lpath.dropLast ≠ [] →
      elemFromScoperef blob lpath.dropLast = .ok elem →
      (elem.get "ilk" = some "class" ∨ elem.get "ilk" = some "instance") →
      lpath ≠ [] →
      parentScoperefFromScoperef (blob, lpath) st =
        (.ok (some (blob, lpath.dropLast.dropLast)), st)) ∧
    (∀ (blob : Elem) (st : EvalSt) (b : Elem) (st' : EvalSt),
      ¬ st.builtin = some blob →
      st.builtInBlob = .ok (b, st') →
      parentScoperefFromScoperef (blob, []) st = (.ok (some (b, [])), st')) ∧
    (∀ (blob : Elem) (st : EvalSt), st.builtin = some blob →
      parentScoperefFromScoperef (blob, []) st = (.ok none, st)) ∧
    (∀ (st : EvalSt) (b : Elem), st.builtin = some b →
      st.builtInBlob = .ok (b, st)) ∧
    (∀ (st : EvalSt) (b : Elem) (st' : EvalSt), st.builtin = none →
      st.builtInBlob = .ok (b, st') →
      st'.builtin = some b ∧
      ∃ lib, st.stdlib = .ok lib ∧ lib.getBlob? "*" = some b) := by
  refine ⟨fun blob lpath st elem h1 h2 h3 h4 => ?_,
    fun blob lpath st elem h1 h2 h3 h4 => ?_,
    fun blob st b st' h1 h2 => ?_,
    fun blob st h1 => ?_,
    fun st b h => ?_,
    fun st b st' h1 h2 => ?_⟩
  · unfold parentScoperefFromScoperef
    try dsimp only
    rw [if_pos h4, if_pos h1, h2]
    try dsimp only
    rw [if_neg h3]
  · unfold parentScoperefFromScoperef
    try dsimp only
    rw [if_pos h4, if_pos h1, h2]
    try dsimp only
    rw [if_pos h3]
  · unfold parentScoperefFromScoperef
    try dsimp only
    rw [if_neg (by simp), if_neg h1, h2]
  · unfold parentScoperefFromScoperef
    try dsimp only
    rw [if_neg (by simp), if_pos h1]
  · simp only [EvalSt.builtInBlob, h]
  · simp only [EvalSt.builtInBlob, h1] at h2
    rcases hs : st.stdlib with e | lib
    · rw [hs] at h2
      try dsimp only at h2
      exact absurd h2 (by simp)
    · rw [hs] at h2
      try dsimp only at h2
      rcases hg : lib.getBlob? "*" with _ | b0
      · rw [hg] at h2
        try dsimp only at h2
        exact absurd h2 (by simp)
      · rw [hg] at h2
        try dsimp only at h2
        simp only [Except.ok.injEq, Prod.mk.injEq] at h2
        obtain ⟨hb, hst⟩ := h2
        subst hb
        subst hst
        exact ⟨rfl, lib, rfl, hg⟩

/-- C7 witness: the four parent cases at the concrete blob `p` (class
`K`, method `K.m`, local `K.m.v`) and the built-in blob. -/
theorem C7_parent_scoperef_cases_witness :
    (parentScoperefFromScoperef (klassBlob, ["K", "m", "v"])
        (EvalSt.init libsD) =
      (.ok (some (klassBlob, ["K", "m"])), EvalSt.init libsD)) ∧
    (parentScoperefFromScoperef (klassBlob, ["K", "m"]) (EvalSt.init libsD) =
      (.ok (some (klassBlob, [])), EvalSt.init libsD)) ∧
    (parentScoperefFromScoperef (klassBlob, []) (EvalSt.init libsD) =
      (.ok (some (builtinBlob, [])), ⟨libsD, none, some builtinBlob, []⟩)) ∧
    (parentScoperefFromScoperef (builtinBlob, [])
        ⟨libsD, none, some builtinBlob, []⟩ =
      (.ok none, ⟨libsD, none, some builtinBlob, []⟩)) ∧
    ((⟨libsD, none, some builtinBlob, []⟩ : EvalSt).builtInBlob =
      .ok (builtinBlob, ⟨libsD, none, some builtinBlob, []⟩)) ∧
    ((⟨libsD, none, some builtinBlob, []⟩ : EvalSt).builtin =
        some builtinBlob ∧
      ∃ lib, (EvalSt.init libsD).stdlib = .ok lib ∧
        lib.getBlob? "*" = some builtinBlob) :=
  ⟨C7_parent_scoperef_cases.1 klassBlob ["K", "m", "v"] (EvalSt.init libsD)
      (.mk "scope" [("name","m"),("ilk","function")]
        [.mk "variable" [("name","v")] []])
      (by decide) rfl (by decide) (by decide),
   C7_parent_scoperef_cases.2.1 klassBlob ["K", "m"] (EvalSt.init libsD)
      (.mk "scope" [("name","K"),("ilk","class")]
        [.mk "scope" [("name","m"),("ilk","function")]
          [.mk "variable" [("name","v")] []]])
      (by decide) rfl (by decide) (by decide),
   C7_parent_scoperef_cases.2.2.1 klassBlob (EvalSt.init libsD) builtinBlob
      ⟨libsD, none, some builtinBlob, []⟩ (by decide) rfl,
   C7_parent_scoperef_cases.2.2.2.1 builtinBlob
      ⟨libsD, none, some builtinBlob, []⟩ rfl,
   C7_parent_scoperef_cases.2.2.2.2.1 ⟨libsD, none, some builtinBlob, []⟩
      builtinBlob rfl,
   C7_parent_scoperef_cases.2.2.2.2.2 (EvalSt.init libsD) builtinBlob
      ⟨libsD, none, some builtinBlob, []⟩ rfl rfl⟩

/-- C8 counterexample: `".foo"` tokenizes to `["foo"]` — no empty
leading token is yielded. -/
theorem C8_counterexample :
    tokenizeCitdlExpr ".foo" = ["foo"] ∧
    decide (tokenizeCitdlExpr ".foo" = "" :: ["foo"]) = false :=
  ⟨rfl, rfl⟩

/-- C8: corrected.  The tokenizer never yields an empty token for any
input: the `if word:` guard of `_tokenize_citdl_expr` suppresses the
empty word the regex produces for a leading `.` (and everywhere else),
so there is no empty leading token for callers to strip. -/
theorem C8_no_empty_leading_token :
    ∀ s, (tokenizeCitdlExpr s).all (fun t => t != "") = true := by
  intro s
  rw [List.all_eq_true]
  intro t ht
  have h := tokLoop_ne_nil (tokenizeRe s) 0 "" t ht
  simpa using h

/-- C9: confirmed.  A resolver run never changes the shared `buf.libs`
(`resolverBufLibs`), so a second identical resolution from a fresh
evaluator over the buffer libraries the first run left behind is the
same computation and yields the identical result. -/
theorem C9_resolution_idempotent :
    ∀ fuel env expr sc v d libs,
      ((hitFromCitdl fuel env expr sc v d (EvalSt.init libs)).2).bufLibs =
        libs ∧
      hitFromCitdl fuel env expr sc v d
        (EvalSt.init
          ((hitFromCitdl fuel env expr sc v d (EvalSt.init libs)).2).bufLibs) =
        hitFromCitdl fuel env expr sc v d (EvalSt.init libs) := by
  intro fuel env expr sc v d libs
  have h := (resolverBufLibs fuel).1 env expr sc v d (EvalSt.init libs)
  exact ⟨h, by rw [h]; rfl⟩

/-- C10: confirmed.  A token sequence led by the literal name
`__builtins__` short-circuits first-part resolution to the built-in
fallback blob at its own root scope, consuming exactly one token,
whatever the starting scoperef, requested variable or mode. -/
theorem C10_builtins_short_circuit :
    ∀ fuel env rest sc v d st b st',
      st.builtInBlob = .ok (b, st') →
      hitFromFirstPart (fuel + 1) env ("__builtins__" :: rest) sc v d st =
        (.ok (some ((b, (b, [])), 1)), st') := by
  intro fuel env rest sc v d st b st' hb
  unfold hitFromFirstPart
  try dsimp only [List.head?]
  rw [if_pos rfl, hb]

/-- C10 witness: the short-circuit from a fresh evaluator over the
stdlib-only library stack. -/
theorem C10_builtins_short_circuit_witness :
    hitFromFirstPart 10 envA ["__builtins__", "x"] (blobD, ["x"]) none false
        (EvalSt.init libsD) =
      (.ok (some ((builtinBlob, (builtinBlob, [])), 1)),
        ⟨libsD, none, some builtinBlob, []⟩) :=
  C10_builtins_short_circuit 9 envA ["x"] (blobD, ["x"]) none false
    (EvalSt.init libsD) builtinBlob ⟨libsD, none, some builtinBlob, []⟩ rfl

end CodeIntel
